import Mathlib

/-!
# apt `methods/gpgv.cc`: status-stream classification and the trust decision

A shallow embedding of `FindDigest`, `GPGVMethod::VerifyGetSigners` and
`GPGVMethod::URIAcquire`, followed by theorems about them.

Conventions of the embedding.

* A C string / `std::string` is a `List Char` (`CStr`): the characters before
  the terminating NUL.  A line read by `getline` is the C string held in
  `buffer`, its trailing newline included.
* `std::vector<T>` is `List T`; `push_back` appends at the end.
* A computation has type `Option _`.  The value `none` stands for an execution
  whose outcome the C++ language does not determine or that does not return
  normally: an index or pointer outside its object, `erase` of the `end()`
  iterator, element values left unspecified by `std::remove`, an exception that
  nothing catches.
* The verification subprocess is an input: the lines it writes on the status
  pipe and its exit status.
-/

namespace Gpgv

/-- A C string: the characters before the terminating NUL. -/
abbrev CStr := List Char

/-! ## C library pieces used by the source -/

/-- The C function `isspace` in the "C" locale, also the whitespace of a classic-locale stream. -/
def isspace (c : Char) : Bool :=
  c = ' ' || c = '\t' || c = '\n' || c = '\x0b' || c = '\x0c' || c = '\r'

/-- The C function `isdigit`. -/
def isdigit (c : Char) : Bool := '0' ≤ c && c ≤ '9'

/-- The C function `isxdigit`. -/
def isxdigit (c : Char) : Bool :=
  ('0' ≤ c && c ≤ '9') || ('a' ≤ c && c ≤ 'f') || ('A' ≤ c && c ≤ 'F')

/-- The operator `sizeof` on a string literal: its length plus the terminating NUL. -/
def sizeof (lit : CStr) : Nat := lit.length + 1

/-- The test `strncmp(a, b, n) == 0` on C strings: the first `n` characters agree
(a string shorter than `n` must end where the other ends). -/
def strncmp_eq (a b : CStr) (n : Nat) : Bool := decide (a.take n = b.take n)

/-- The C string at `buffer + off`.  The pointer may rest on the terminating
NUL (giving the empty string); beyond it the read leaves the string. -/
def cstrAt (buffer : CStr) (off : Nat) : Option CStr :=
  if off ≤ buffer.length then some (buffer.drop off) else none

/-- Value of a run of decimal digits. -/
def digitsValue (ds : List Char) : Nat :=
  ds.foldl (fun acc c => 10 * acc + (c.toNat - 48)) 0

/-- The call `strtol(s, NULL, 10)` with a 64-bit `long`: leading whitespace, an optional
sign, the longest run of decimal digits (none gives 0), saturating at
`LONG_MIN` and `LONG_MAX`. -/
def strtol (s : CStr) : Int :=
  let t := s.dropWhile isspace
  let v : Int :=
    match t with
    | '-' :: r => - (digitsValue (r.takeWhile isdigit) : Int)
    | '+' :: r => (digitsValue (r.takeWhile isdigit) : Int)
    | _ => (digitsValue (t.takeWhile isdigit) : Int)
  max (-(2 ^ 63)) (min v (2 ^ 63 - 1))

/-- Conversion of a `long` to a 32-bit `int`: reduction modulo `2 ^ 32`. -/
def toInt32 (v : Int) : Int := (v + 2 ^ 31) % 2 ^ 32 - 2 ^ 31

/-- The call `atoi(s)`, which is `(int) strtol(s, NULL, 10)`. -/
def atoi (s : CStr) : Int := toInt32 (strtol s)

/-- The cast `static_cast<unsigned>(id)` for a 32-bit `int`. -/
def static_cast_unsigned (id : Int) : Nat := (id % 2 ^ 32).toNat

/-- Worker of `istream_tokens`: `cur` is the token being read, reversed. -/
def istream_tokens_aux : CStr → CStr → List CStr
  | [], cur => if cur = [] then [] else [cur.reverse]
  | c :: cs, cur =>
    if isspace c then
      (if cur = [] then istream_tokens_aux cs [] else cur.reverse :: istream_tokens_aux cs [])
    else istream_tokens_aux cs (c :: cur)

/-- The vector built from `std::istream_iterator<string>` over an
`istringstream`: the maximal runs of non-whitespace characters, in order. -/
def istream_tokens (s : CStr) : List CStr := istream_tokens_aux s []

/-- The call `std::string::substr(pos, n)`: throws `std::out_of_range` (here `none`)
when `pos > size()`, else the at most `n` characters from `pos`. -/
def substr (s : CStr) (pos n : Nat) : Option CStr :=
  if pos ≤ s.length then some ((s.drop pos).take n) else none

/-- The statement `v.erase(std::remove(v.begin(), v.end(), value), v.end())`: every element
equal to `value` is removed. -/
def erase_remove_to_end (v : List CStr) (value : CStr) : List CStr :=
  v.filter (fun x => decide (x ≠ value))

/-- The statement `v.erase(std::remove(v.begin(), v.end(), value))`, the one-iterator
`erase`.  `std::remove` moves the elements different from `value` to the front
and returns the iterator behind them.
* No element equals `value`: the iterator is `end()`, and erasing `end()` is
  undefined.
* One element equals `value`: the single slot behind the iterator is erased.
* Several do: one slot is erased, the others stay in the vector with
  unspecified values. -/
def erase_remove (v : List CStr) (value : CStr) : Option (List CStr) :=
  if v.count value = 1 then some (v.filter (fun x => decide (x ≠ value))) else none

/-- Modelled from the spec: the translation macro `_()` of `apti18n.h`, which
is not in the sources; translation of user-facing strings is out of scope, so
a message is its untranslated template. -/
def gettext (msgid : CStr) : CStr := msgid

/-- Modelled from the spec: the `printf`-style helpers `strprintf`, `Warning`
and `Error` of apt-pkg, which are not in the sources; only `%s` occurs in the
templates used here, and each is replaced by the next argument. -/
def format : CStr → List CStr → CStr
  | [], _ => []
  | [c], _ => [c]
  | c :: d :: rest, args =>
    if c = '%' ∧ d = 's' then
      match args with
      | a :: more => a ++ format rest more
      | [] => format rest []
    else c :: format (d :: rest) args

/-! ## The digest table -/

/-- The `enum class State` of `struct Digest`. -/
inductive Digest.State where
  | Untrusted
  | Weak
  | Trusted
  deriving DecidableEq, Repr

/-- The `struct Digest`. -/
structure Digest where
  state : Digest.State
  name : CStr
  deriving DecidableEq, Repr

/-- The table `Digests[]`. -/
def Digests : List Digest :=
  [ ⟨.Untrusted, "Invalid digest".toList⟩,
    ⟨.Untrusted, "MD5".toList⟩,
    ⟨.Weak, "SHA1".toList⟩,
    ⟨.Weak, "RIPE-MD/160".toList⟩,
    ⟨.Trusted, "Reserved digest".toList⟩,
    ⟨.Trusted, "Reserved digest".toList⟩,
    ⟨.Trusted, "Reserved digest".toList⟩,
    ⟨.Trusted, "Reserved digest".toList⟩,
    ⟨.Trusted, "SHA256".toList⟩,
    ⟨.Trusted, "SHA384".toList⟩,
    ⟨.Trusted, "SHA512".toList⟩,
    ⟨.Trusted, "SHA224".toList⟩ ]

/-- Modelled from the spec: the macro `_count` of apt-pkg, which is not in the
sources; the spec compares the id with the table length. -/
def _count (a : List Digest) : Nat := a.length

/-- The function `FindDigest`.  The array accesses `Digests[id]` and
`Digests[0]` are checked reads: `none` would be a read outside the table. -/
def FindDigest (digest : CStr) : Option Digest :=
  let id := atoi digest
  if 0 ≤ id ∧ static_cast_unsigned id < _count Digests then
    Digests[id.toNat]?
  else
    Digests[0]?

/-! ## `GPGVMethod::VerifyGetSigners` -/

/-- The `struct Signer`. -/
structure Signer where
  key : CStr
  note : CStr
  deriving DecidableEq, Repr

/-- The five vectors `VerifyGetSigners` fills for its caller, and its local
vector `ValidSigners`. -/
structure State where
  GoodSigners : List CStr := []
  BadSigners : List CStr := []
  WorthlessSigners : List CStr := []
  SoonWorthlessSigners : List Signer := []
  NoPubKeySigners : List CStr := []
  ValidSigners : List CStr := []
  deriving DecidableEq, Repr

/-- What the environment does with the request to run `apt-key`. -/
inductive Subprocess where
  /-- The call `pipe(fd)` fails. -/
  | pipeFailed
  /-- The call `fork()` fails; the argument is `strerror(errno)`. -/
  | forkFailed (strerror : CStr)
  /-- The child runs: the lines `getline` reads from the pipe, then
  `WEXITSTATUS(status)`. -/
  | ran (lines : List CStr) (exitstatus : Nat)

def GNUPGPREFIX : CStr := "[GNUPG:]".toList
def GNUPGBADSIG : CStr := "[GNUPG:] BADSIG".toList
def GNUPGNOPUBKEY : CStr := "[GNUPG:] NO_PUBKEY".toList
def GNUPGVALIDSIG : CStr := "[GNUPG:] VALIDSIG".toList
def GNUPGGOODSIG : CStr := "[GNUPG:] GOODSIG".toList
def GNUPGKEYEXPIRED : CStr := "[GNUPG:] KEYEXPIRED".toList
def GNUPGREVKEYSIG : CStr := "[GNUPG:] REVKEYSIG".toList
def GNUPGNODATA : CStr := "[GNUPG:] NODATA".toList

/-- The `VALIDSIG` branch of the status loop, entered once the tag matched. -/
def validsigBranch (s : State) (buffer : CStr) : Option State := do
  -- char *sig = buffer + sizeof(GNUPGVALIDSIG);
  let sig ← cstrAt buffer (sizeof GNUPGVALIDSIG)
  -- the tokens are cut from a copy, before the buffer is truncated
  let tokens := istream_tokens sig
  -- while (*p && isxdigit(*p)) p++;  *p = 0;
  let sig := sig.takeWhile isxdigit
  -- Digest digest = FindDigest(tokens[7]);
  let token ← tokens[7]?
  let digest ← FindDigest token
  let s ← (match digest.state with
    | .Weak =>
      some { s with SoonWorthlessSigners := s.SoonWorthlessSigners ++ [⟨sig, digest.name⟩] }
    | .Untrusted =>
      (erase_remove s.GoodSigners sig).map fun good =>
        { s with WorthlessSigners := s.WorthlessSigners ++ [sig], GoodSigners := good }
    | .Trusted => some s)
  some { s with ValidSigners := s.ValidSigners ++ [sig] }

/-- The `GOODSIG` branch of the status loop, entered once the tag matched. -/
def goodsigBranch (s : State) (buffer : CStr) : Option State := do
  -- char *sig = buffer + sizeof(GNUPGPREFIX);
  let sig ← cstrAt buffer (sizeof GNUPGPREFIX)
  -- char *p = sig + sizeof("GOODSIG");
  let p ← cstrAt buffer (sizeof GNUPGPREFIX + sizeof "GOODSIG".toList)
  -- while (*p && isxdigit(*p)) p++;  *p = 0;
  let sig := sig.take (sizeof "GOODSIG".toList + (p.takeWhile isxdigit).length)
  some { s with GoodSigners := s.GoodSigners ++ [sig] }

/-- One turn of the `while (1)` loop on the line held in `buffer`. -/
def processLine (s : State) (buffer : CStr) : Option State :=
  if strncmp_eq buffer GNUPGBADSIG (sizeof GNUPGBADSIG - 1) then
    (cstrAt buffer (sizeof GNUPGPREFIX)).map fun sig =>
      { s with BadSigners := s.BadSigners ++ [sig] }
  else if strncmp_eq buffer GNUPGNOPUBKEY (sizeof GNUPGNOPUBKEY - 1) then
    (cstrAt buffer (sizeof GNUPGPREFIX)).map fun sig =>
      { s with NoPubKeySigners := s.NoPubKeySigners ++ [sig] }
  else if strncmp_eq buffer GNUPGNODATA (sizeof GNUPGBADSIG - 1) then
    (cstrAt buffer (sizeof GNUPGPREFIX)).map fun sig =>
      { s with BadSigners := s.BadSigners ++ [sig] }
  else if strncmp_eq buffer GNUPGKEYEXPIRED (sizeof GNUPGKEYEXPIRED - 1) then
    (cstrAt buffer (sizeof GNUPGPREFIX)).map fun sig =>
      { s with WorthlessSigners := s.WorthlessSigners ++ [sig] }
  else if strncmp_eq buffer GNUPGREVKEYSIG (sizeof GNUPGREVKEYSIG - 1) then
    (cstrAt buffer (sizeof GNUPGPREFIX)).map fun sig =>
      { s with WorthlessSigners := s.WorthlessSigners ++ [sig] }
  else if strncmp_eq buffer GNUPGGOODSIG (sizeof GNUPGGOODSIG - 1) then
    goodsigBranch s buffer
  else if strncmp_eq buffer GNUPGVALIDSIG (sizeof GNUPGVALIDSIG - 1) then
    validsigBranch s buffer
  else
    some s

/-- The `while (1)` loop: every line read from the pipe, in order. -/
def statusLoop : State → List CStr → Option State
  | s, [] => some s
  | s, buffer :: rest => (processLine s buffer).bind fun s1 => statusLoop s1 rest

/-- The test `key.empty() == false && key[0] != '/'`. -/
def keyIsID (key : CStr) : Bool :=
  match key with
  | [] => false
  | c :: _ => decide (c ≠ '/')

/-- The block `if (keyIsID == true) { ... }` after the loop. -/
def keyScoping (key : CStr) (s : State) : Option State :=
  if keyIsID key then
    let found := decide (key ∈ s.ValidSigners)
    -- std::copy(GoodSigners.begin(), GoodSigners.end(), back_inserter(NoPubKeySigners));
    let s := { s with NoPubKeySigners := s.NoPubKeySigners ++ s.GoodSigners }
    if found then
      (substr key 24 16).map fun tail =>
        let goodlongkeyid := "GOODSIG ".toList ++ tail
        let foundGood := decide (goodlongkeyid ∈ s.GoodSigners)
        if foundGood then
          { s with
            GoodSigners := [goodlongkeyid],
            NoPubKeySigners := erase_remove_to_end s.NoPubKeySigners goodlongkeyid }
        else
          { s with GoodSigners := [] }
    else
      some { s with GoodSigners := [] }
  else
    some s

/-- The message chosen from `WEXITSTATUS(status)` at the end of
`VerifyGetSigners`. -/
def exitMessage (keyIsID : Bool) (exitstatus : Nat) (GoodSigners : List CStr) : CStr :=
  if exitstatus = 0 then
    if keyIsID then
      if GoodSigners.isEmpty then
        gettext "At least one invalid signature was encountered.".toList
      else []
    else
      if GoodSigners.isEmpty then
        gettext "Internal error: Good signature, but could not determine key fingerprint?!".toList
      else []
  else if exitstatus = 1 then
    gettext "At least one invalid signature was encountered.".toList
  else if exitstatus = 111 then
    gettext "Could not execute 'apt-key' to verify signature (is gnupg installed?)".toList
  else if exitstatus = 112 then
    format
      (gettext "Clearsigned file isn't valid, got '%s' (does the network require authentication?)".toList)
      ["NODATA".toList]
  else
    gettext "Unknown error executing apt-key".toList

/-- The method `GPGVMethod::VerifyGetSigners`: the returned message and the
vectors as it leaves them. -/
def GPGVMethod.VerifyGetSigners (key : CStr) (child : Subprocess)
    (GoodSigners BadSigners WorthlessSigners : List CStr)
    (SoonWorthlessSigners : List Signer) (NoPubKeySigners : List CStr) :
    Option (CStr × State) :=
  let s0 : State :=
    { GoodSigners := GoodSigners, BadSigners := BadSigners,
      WorthlessSigners := WorthlessSigners,
      SoonWorthlessSigners := SoonWorthlessSigners,
      NoPubKeySigners := NoPubKeySigners, ValidSigners := [] }
  match child with
  | .pipeFailed => some ("Couldn't create pipe".toList, s0)
  | .forkFailed strerror => some ("Couldn't spawn new process".toList ++ strerror, s0)
  | .ran lines exitstatus => do
    let s1 ← statusLoop s0 lines
    let s2 ← keyScoping key s1
    some (exitMessage (keyIsID key) exitstatus s2.GoodSigners, s2)

/-! ## `GPGVMethod::URIAcquire` -/

/-- What `URIAcquire` hands to the acquire system. -/
structure Result where
  /-- The value returned. -/
  ret : Bool
  /-- The message given to `_error->Error`, when it is called. -/
  Error : Option CStr
  /-- The messages given to `Warning`, in order. -/
  Warnings : List CStr
  /-- The lines `Res.GPGVOutput` given to `URIDone`, when it is called. -/
  GPGVOutput : Option (List CStr)
  deriving DecidableEq, Repr

/-- The loop that removes, for each soon-worthless signer, its `GOODSIG` entry
from the copy `NotWarnAboutSigners` of `GoodSigners`. -/
def NotWarnAboutSigners : List CStr → List Signer → Option (List CStr)
  | notWarn, [] => some notWarn
  | notWarn, signer :: rest =>
    (erase_remove notWarn ("GOODSIG ".toList ++ signer.key)).bind fun v =>
      NotWarnAboutSigners v rest

/-- The text of one weak-digest warning. -/
def weakDigestWarning (signer : Signer) : CStr :=
  format (gettext "Signature by key %s uses weak digest algorithm (%s)".toList)
    [signer.key, signer.note]

/-- The block "If all signers are soon worthless, report them". -/
def weakDigestWarnings (s : State) : Option (List CStr) :=
  (NotWarnAboutSigners s.GoodSigners s.SoonWorthlessSigners).map fun notWarn =>
    if notWarn.isEmpty then s.SoonWorthlessSigners.map weakDigestWarning else []

/-- The lines `*I + "\n"` appended for each entry of a vector. -/
def listing (v : List CStr) : CStr := (v.map fun I => I ++ ['\n']).flatten

/-- The text `errmsg` built inside the rejection test. -/
def errmsg (msg : CStr) (s : State) : CStr :=
  if s.BadSigners.isEmpty && s.WorthlessSigners.isEmpty && s.NoPubKeySigners.isEmpty then
    msg
  else
    (if !s.BadSigners.isEmpty then
      gettext "The following signatures were invalid:\n".toList ++ listing s.BadSigners
     else [])
    ++ (if !s.WorthlessSigners.isEmpty then
      gettext "The following signatures were invalid:\n".toList ++ listing s.WorthlessSigners
     else [])
    ++ (if !s.NoPubKeySigners.isEmpty then
      gettext "The following signatures couldn't be verified because the public key is not available:\n".toList
        ++ listing s.NoPubKeySigners
     else [])

/-- The end of `URIAcquire`, from the test
`GoodSigners.empty() || !BadSigners.empty() || !NoPubKeySigners.empty()` on. -/
def decision (msg : CStr) (s : State) (Warnings : List CStr) : Result :=
  let done : Result :=
    { ret := true, Error := none, Warnings := Warnings,
      GPGVOutput := some (s.GoodSigners ++ s.BadSigners ++ s.NoPubKeySigners) }
  if s.GoodSigners.isEmpty || !s.BadSigners.isEmpty || !s.NoPubKeySigners.isEmpty then
    if s.GoodSigners.isEmpty || !s.BadSigners.isEmpty then
      { ret := false, Error := some (format "%s".toList [errmsg msg s]),
        Warnings := Warnings, GPGVOutput := none }
    else done
  else done

/-- The method `GPGVMethod::URIAcquire`; `key` is the `Signed-By` field of the
message. -/
def GPGVMethod.URIAcquire (key : CStr) (child : Subprocess) : Option Result := do
  let (msg, s) ← GPGVMethod.VerifyGetSigners key child [] [] [] [] []
  let Warnings ← weakDigestWarnings s
  some (decision msg s Warnings)

/-! ## Notions used in the statements -/

/-- The shape of the entries the status loop writes: each entry of the three
vectors keeps the tag word of the line it was cut from. -/
def TaggedEntries (s : State) : Prop :=
  (∀ e ∈ s.GoodSigners, "GOODSIG".toList <+: e)
  ∧ (∀ e ∈ s.BadSigners, "BADSIG".toList <+: e ∨ "NODATA".toList <+: e)
  ∧ (∀ e ∈ s.WorthlessSigners, "KEYEXPIRED".toList <+: e ∨ "REVKEYSIG".toList <+: e)

instance (s : State) : Decidable (TaggedEntries s) := by
  unfold TaggedEntries
  infer_instance

/-- The signer key identifier carried by a stored entry, as the spec names it:
the hexadecimal run of the field that follows the tag word. -/
def signerKey (entry : CStr) : CStr :=
  ((entry.dropWhile fun c => !isspace c).dropWhile isspace).takeWhile isxdigit

/-- The shape of the entries of the three vectors when the `VALIDSIG` case of
an Untrusted digest is counted in: that case pushes the bare key, a run of
hexadecimal digits, to `WorthlessSigners`. -/
def EntryShapes (s : State) : Prop :=
  (∀ e ∈ s.GoodSigners, "GOODSIG".toList <+: e)
  ∧ (∀ e ∈ s.BadSigners, "BADSIG".toList <+: e ∨ "NODATA".toList <+: e)
  ∧ (∀ e ∈ s.WorthlessSigners,
      "KEYEXPIRED".toList <+: e ∨ "REVKEYSIG".toList <+: e ∨ ∀ c ∈ e, isxdigit c = true)

instance (s : State) : Decidable (EntryShapes s) := by
  unfold EntryShapes
  infer_instance

/-- The `VALIDSIG` branch with the statement
`GoodSigners.erase(std::remove(...))` left open: `erase` stands for what that
statement leaves in `GoodSigners`.  With `erase_remove` this is
`validsigBranch`. -/
def validsigBranchWith (erase : List CStr → CStr → Option (List CStr))
    (s : State) (buffer : CStr) : Option State := do
  let sig ← cstrAt buffer (sizeof GNUPGVALIDSIG)
  let tokens := istream_tokens sig
  let sig := sig.takeWhile isxdigit
  let token ← tokens[7]?
  let digest ← FindDigest token
  let s ← (match digest.state with
    | .Weak =>
      some { s with SoonWorthlessSigners := s.SoonWorthlessSigners ++ [⟨sig, digest.name⟩] }
    | .Untrusted =>
      (erase s.GoodSigners sig).map fun good =>
        { s with WorthlessSigners := s.WorthlessSigners ++ [sig], GoodSigners := good }
    | .Trusted => some s)
  some { s with ValidSigners := s.ValidSigners ++ [sig] }

/-- One turn of the loop with that statement left open: `processLine` with
`validsigBranchWith erase` in the `VALIDSIG` case. -/
def processLineWith (erase : List CStr → CStr → Option (List CStr))
    (s : State) (buffer : CStr) : Option State :=
  if strncmp_eq buffer GNUPGBADSIG (sizeof GNUPGBADSIG - 1) then
    (cstrAt buffer (sizeof GNUPGPREFIX)).map fun sig =>
      { s with BadSigners := s.BadSigners ++ [sig] }
  else if strncmp_eq buffer GNUPGNOPUBKEY (sizeof GNUPGNOPUBKEY - 1) then
    (cstrAt buffer (sizeof GNUPGPREFIX)).map fun sig =>
      { s with NoPubKeySigners := s.NoPubKeySigners ++ [sig] }
  else if strncmp_eq buffer GNUPGNODATA (sizeof GNUPGBADSIG - 1) then
    (cstrAt buffer (sizeof GNUPGPREFIX)).map fun sig =>
      { s with BadSigners := s.BadSigners ++ [sig] }
  else if strncmp_eq buffer GNUPGKEYEXPIRED (sizeof GNUPGKEYEXPIRED - 1) then
    (cstrAt buffer (sizeof GNUPGPREFIX)).map fun sig =>
      { s with WorthlessSigners := s.WorthlessSigners ++ [sig] }
  else if strncmp_eq buffer GNUPGREVKEYSIG (sizeof GNUPGREVKEYSIG - 1) then
    (cstrAt buffer (sizeof GNUPGPREFIX)).map fun sig =>
      { s with WorthlessSigners := s.WorthlessSigners ++ [sig] }
  else if strncmp_eq buffer GNUPGGOODSIG (sizeof GNUPGGOODSIG - 1) then
    goodsigBranch s buffer
  else if strncmp_eq buffer GNUPGVALIDSIG (sizeof GNUPGVALIDSIG - 1) then
    validsigBranchWith erase s buffer
  else
    some s

/-- The `while (1)` loop with that statement left open. -/
def statusLoopWith (erase : List CStr → CStr → Option (List CStr)) :
    State → List CStr → Option State
  | s, [] => some s
  | s, buffer :: rest =>
    (processLineWith erase s buffer).bind fun s1 => statusLoopWith erase s1 rest

/-! ## The trust decision -/

/-- C1: for every final classification state and every diagnostic string, the
decision of `URIAcquire` rejects (returns false with an error and never reaches
`URIDone`) exactly when `GoodSigners` is empty or `BadSigners` is non-empty; it
accepts exactly in the other case, a non-empty `NoPubKeySigners` included, and
then the output lines are `GoodSigners ++ BadSigners ++ NoPubKeySigners`. -/
theorem decision_rejects_iff (msg : CStr) (s : State) (Warnings : List CStr) :
    (((decision msg s Warnings).ret = false ∧ (decision msg s Warnings).Error ≠ none
        ∧ (decision msg s Warnings).GPGVOutput = none)
      ↔ (s.GoodSigners = [] ∨ s.BadSigners ≠ []))
    ∧ ((decision msg s Warnings).ret = true ↔ (s.GoodSigners ≠ [] ∧ s.BadSigners = []))
    ∧ ((decision msg s Warnings).ret = true →
        (decision msg s Warnings).Error = none
        ∧ (decision msg s Warnings).GPGVOutput
            = some (s.GoodSigners ++ s.BadSigners ++ s.NoPubKeySigners)) := by
  obtain ⟨good, bad, worthless, soon, nopub, valid⟩ := s
  cases good <;> cases bad <;> cases nopub <;> simp [decision]


/-! ## Facts about the C library pieces -/

theorem toInt32_range (v : Int) : -(2 ^ 31) ≤ toInt32 v ∧ toInt32 v < 2 ^ 31 := by
  unfold toInt32
  constructor <;> omega

theorem atoi_range (s : CStr) : -(2 ^ 31) ≤ atoi s ∧ atoi s < 2 ^ 31 :=
  toInt32_range (strtol s)

theorem static_cast_unsigned_of_nonneg (id : Int) (h0 : 0 ≤ id) (h1 : id < 2 ^ 31) :
    static_cast_unsigned id = id.toNat := by
  unfold static_cast_unsigned
  omega

theorem FindDigest_in_range (token : CStr) (h0 : 0 ≤ atoi token) (h1 : atoi token < 12) :
    FindDigest token = Digests[(atoi token).toNat]? := by
  have hc : static_cast_unsigned (atoi token) = (atoi token).toNat :=
    static_cast_unsigned_of_nonneg _ h0 (by omega)
  have hlt : (atoi token).toNat < _count Digests := by
    show (atoi token).toNat < 12
    omega
  simp only [FindDigest, hc]
  rw [if_pos ⟨h0, hlt⟩]

theorem FindDigest_out_of_range (token : CStr) (h : ¬ (0 ≤ atoi token ∧ atoi token < 12)) :
    FindDigest token = some ⟨.Untrusted, "Invalid digest".toList⟩ := by
  have hr := atoi_range token
  have hcond : ¬ (0 ≤ atoi token ∧ static_cast_unsigned (atoi token) < _count Digests) := by
    rintro ⟨h0, hlt⟩
    rw [static_cast_unsigned_of_nonneg _ h0 hr.2] at hlt
    have : (atoi token).toNat < 12 := hlt
    omega
  simp only [FindDigest]
  rw [if_neg hcond]
  rfl

/-- C8: for every token, `FindDigest` returns an entry of the table (length
12), never reading outside it: the entry at index `id` when `0 <= id < 12`,
and entry 0 ("Invalid digest", Untrusted) for every other id, negative ids and
tokens that are not numbers (for which `atoi` gives 0) included. -/
theorem FindDigest_total (token : CStr) :
    ∃ d, FindDigest token = some d ∧ d ∈ Digests ∧ _count Digests = 12
      ∧ ((0 ≤ atoi token ∧ atoi token < 12) → Digests[(atoi token).toNat]? = some d)
      ∧ (¬ (0 ≤ atoi token ∧ atoi token < 12) →
          d = ⟨.Untrusted, "Invalid digest".toList⟩ ∧ Digests[0]? = some d)
      ∧ FindDigest "-1".toList = some ⟨.Untrusted, "Invalid digest".toList⟩
      ∧ FindDigest "SHA256".toList = some ⟨.Untrusted, "Invalid digest".toList⟩ := by
  by_cases h : 0 ≤ atoi token ∧ atoi token < 12
  · have hlt : (atoi token).toNat < Digests.length := by
      show (atoi token).toNat < 12
      omega
    refine ⟨Digests[(atoi token).toNat], ?_, List.getElem_mem _, rfl, ?_, ?_, by decide, by decide⟩
    · rw [FindDigest_in_range token h.1 h.2]
      exact List.getElem?_eq_getElem hlt
    · intro _
      exact List.getElem?_eq_getElem hlt
    · intro hn
      exact absurd h hn
  · refine ⟨⟨.Untrusted, "Invalid digest".toList⟩, FindDigest_out_of_range token h, by decide,
      rfl, ?_, ?_, by decide, by decide⟩
    · intro hp
      exact absurd hp h
    · intro _
      exact ⟨rfl, rfl⟩


/-! ## Facts about the status loop -/

theorem istream_tokens_nil : istream_tokens [] = [] := rfl

/-- A buffer matching one tag on its first `n` characters fails the comparison
with a tag that differs from it within the first `min n m`. -/
theorem strncmp_eq_exclusive {buffer t1 t2 : CStr} {n m : Nat}
    (h1 : strncmp_eq buffer t1 n = true)
    (hne : t1.take (min m n) ≠ t2.take (min m n)) :
    strncmp_eq buffer t2 m = false := by
  simp only [strncmp_eq, decide_eq_true_eq] at h1
  simp only [strncmp_eq, decide_eq_false_iff_not]
  intro h2
  apply hne
  have e1 : (buffer.take n).take m = (t1.take n).take m := by rw [h1]
  have e2 : (buffer.take m).take n = (t2.take m).take n := by rw [h2]
  simp only [List.take_take] at e1 e2
  rw [Nat.min_comm n m] at e2
  exact e1.symm.trans e2

/-- A line carrying the `VALIDSIG` tag reaches the `VALIDSIG` branch. -/
theorem processLine_validsig (s : State) (buffer : CStr)
    (htag : strncmp_eq buffer GNUPGVALIDSIG (sizeof GNUPGVALIDSIG - 1) = true) :
    processLine s buffer = validsigBranch s buffer := by
  have h1 : strncmp_eq buffer GNUPGBADSIG (sizeof GNUPGBADSIG - 1) = false :=
    strncmp_eq_exclusive htag (by decide)
  have h2 : strncmp_eq buffer GNUPGNOPUBKEY (sizeof GNUPGNOPUBKEY - 1) = false :=
    strncmp_eq_exclusive htag (by decide)
  have h3 : strncmp_eq buffer GNUPGNODATA (sizeof GNUPGBADSIG - 1) = false :=
    strncmp_eq_exclusive htag (by decide)
  have h4 : strncmp_eq buffer GNUPGKEYEXPIRED (sizeof GNUPGKEYEXPIRED - 1) = false :=
    strncmp_eq_exclusive htag (by decide)
  have h5 : strncmp_eq buffer GNUPGREVKEYSIG (sizeof GNUPGREVKEYSIG - 1) = false :=
    strncmp_eq_exclusive htag (by decide)
  have h6 : strncmp_eq buffer GNUPGGOODSIG (sizeof GNUPGGOODSIG - 1) = false :=
    strncmp_eq_exclusive htag (by decide)
  simp [processLine, h1, h2, h3, h4, h5, h6, htag]

/-- A `VALIDSIG` line with a token at position 7 is long enough for the pointer
`buffer + sizeof(GNUPGVALIDSIG)` to stay inside the string. -/
theorem cstrAt_of_token (buffer token : CStr)
    (htok : (istream_tokens (buffer.drop (sizeof GNUPGVALIDSIG)))[7]? = some token) :
    cstrAt buffer (sizeof GNUPGVALIDSIG) = some (buffer.drop (sizeof GNUPGVALIDSIG)) := by
  unfold cstrAt
  split
  · rfl
  · rename_i h
    have hnil : buffer.drop (sizeof GNUPGVALIDSIG) = [] :=
      List.drop_eq_nil_of_le (by omega)
    rw [hnil, istream_tokens_nil] at htok
    simp at htok

/-- A weak digest is one of the two table entries 2 and 3. -/
theorem FindDigest_weak (token : CStr) (d : Digest)
    (hd : FindDigest token = some d) (hweak : d.state = .Weak) :
    (atoi token = 2 ∧ d.name = "SHA1".toList)
      ∨ (atoi token = 3 ∧ d.name = "RIPE-MD/160".toList) := by
  by_cases h : 0 ≤ atoi token ∧ atoi token < 12
  · rw [FindDigest_in_range token h.1 h.2] at hd
    obtain ⟨h0, h1⟩ := h
    generalize atoi token = id at hd h0 h1
    have hcases : id = 0 ∨ id = 1 ∨ id = 2 ∨ id = 3 ∨ id = 4 ∨ id = 5 ∨ id = 6 ∨ id = 7
        ∨ id = 8 ∨ id = 9 ∨ id = 10 ∨ id = 11 := by omega
    rcases hcases with h | h | h | h | h | h | h | h | h | h | h | h <;> subst h <;>
      simp [Digests] at hd <;> subst hd <;> simp at hweak ⊢
  · rw [FindDigest_out_of_range token h] at hd
    cases hd
    simp at hweak

/-- C4: a `VALIDSIG` line whose digest field (token 7) resolves to a Weak
digest (id 2, SHA1, or id 3, RIPE-MD/160) is processed without failure: nothing
is appended to `WorthlessSigners`, the pair of signer key and digest name is
appended to `SoonWorthlessSigners`, and `GoodSigners` is unchanged, so every
`GOODSIG` entry stays. -/
theorem weak_validsig_soon_worthless (s : State) (buffer token : CStr) (d : Digest)
    (htag : strncmp_eq buffer GNUPGVALIDSIG (sizeof GNUPGVALIDSIG - 1) = true)
    (htok : (istream_tokens (buffer.drop (sizeof GNUPGVALIDSIG)))[7]? = some token)
    (hd : FindDigest token = some d) (hweak : d.state = .Weak) :
    ∃ s1, processLine s buffer = some s1
      ∧ s1.WorthlessSigners = s.WorthlessSigners
      ∧ s1.SoonWorthlessSigners = s.SoonWorthlessSigners
          ++ [⟨(buffer.drop (sizeof GNUPGVALIDSIG)).takeWhile isxdigit, d.name⟩]
      ∧ s1.GoodSigners = s.GoodSigners
      ∧ ((atoi token = 2 ∧ d.name = "SHA1".toList)
          ∨ (atoi token = 3 ∧ d.name = "RIPE-MD/160".toList)) := by
  rw [processLine_validsig s buffer htag]
  simp [validsigBranch, cstrAt_of_token buffer token htok, htok, hd, hweak]
  exact FindDigest_weak token d hd hweak

theorem weak_validsig_soon_worthless_witness :
    ∃ s1, processLine { GoodSigners := ["GOODSIG 0123456789ABCDEF".toList] }
        "[GNUPG:] VALIDSIG 0123456789ABCDEF 2016-01-01 1451606400 0 4 0 1 2 00 0123456789ABCDEF\n".toList
        = some s1
      ∧ s1.WorthlessSigners = []
      ∧ s1.SoonWorthlessSigners = [] ++ [⟨"0123456789ABCDEF".toList, "SHA1".toList⟩]
      ∧ s1.GoodSigners = ["GOODSIG 0123456789ABCDEF".toList]
      ∧ ((atoi "2".toList = 2 ∧ "SHA1".toList = "SHA1".toList)
          ∨ (atoi "2".toList = 3 ∧ "SHA1".toList = "RIPE-MD/160".toList)) :=
  weak_validsig_soon_worthless { GoodSigners := ["GOODSIG 0123456789ABCDEF".toList] }
    "[GNUPG:] VALIDSIG 0123456789ABCDEF 2016-01-01 1451606400 0 4 0 1 2 00 0123456789ABCDEF\n".toList
    "2".toList ⟨.Weak, "SHA1".toList⟩ (by decide) (by decide) (by decide) rfl


/-- C5: the line `[GNUPG:] VALIDSIG 0123456789ABCDEF` has one field after the
tag; reading `tokens[7]` leaves the vector, so whatever the vectors hold the
turn of the loop has no defined outcome and nothing is appended to
`WorthlessSigners`. -/
theorem short_validsig_reads_past_tokens (s : State) :
    (istream_tokens ("[GNUPG:] VALIDSIG 0123456789ABCDEF\n".toList.drop
        (sizeof GNUPGVALIDSIG))).length = 1
    ∧ (istream_tokens ("[GNUPG:] VALIDSIG 0123456789ABCDEF\n".toList.drop
        (sizeof GNUPGVALIDSIG)))[7]? = none
    ∧ processLine s "[GNUPG:] VALIDSIG 0123456789ABCDEF\n".toList = none := by
  refine ⟨by decide, by decide, ?_⟩
  rw [processLine_validsig s _ (by decide)]
  have htok : (istream_tokens ("[GNUPG:] VALIDSIG 0123456789ABCDEF\n".toList.drop
      (sizeof GNUPGVALIDSIG)))[7]? = none := by decide
  have hsig : cstrAt "[GNUPG:] VALIDSIG 0123456789ABCDEF\n".toList (sizeof GNUPGVALIDSIG)
      = some ("[GNUPG:] VALIDSIG 0123456789ABCDEF\n".toList.drop (sizeof GNUPGVALIDSIG)) := by
    decide
  simp only [validsigBranch, hsig, htok, Option.bind_eq_bind, Option.some_bind, Option.none_bind]

set_option maxRecDepth 100000 in
/-- C3: after `GOODSIG` lines for the keys 0123456789ABCDEF and
FEDCBA9876543210, `GoodSigners` holds the two entries that start with
"GOODSIG "; the `VALIDSIG` line for 0123456789ABCDEF with digest id 1 (MD5,
Untrusted) searches `GoodSigners` for the bare key, finds no element, and
erases `end()`: the run has no defined outcome and the `GOODSIG` entry of the
key is not removed by it. -/
theorem untrusted_validsig_after_goodsig :
    statusLoop {}
        [ "[GNUPG:] GOODSIG 0123456789ABCDEF Example <e@example>\n".toList,
          "[GNUPG:] GOODSIG FEDCBA9876543210 Other <o@example>\n".toList ]
      = some { GoodSigners :=
                [ "GOODSIG 0123456789ABCDEF".toList, "GOODSIG FEDCBA9876543210".toList ] }
    ∧ (FindDigest "1".toList).map (fun d => d.state) = some Digest.State.Untrusted
    ∧ List.count "0123456789ABCDEF".toList
        [ "GOODSIG 0123456789ABCDEF".toList, "GOODSIG FEDCBA9876543210".toList ] = 0
    ∧ statusLoop {}
        [ "[GNUPG:] GOODSIG 0123456789ABCDEF Example <e@example>\n".toList,
          "[GNUPG:] GOODSIG FEDCBA9876543210 Other <o@example>\n".toList,
          "[GNUPG:] VALIDSIG 0123456789ABCDEF 2016-01-01 1451606400 0 4 0 1 1 00 0123456789ABCDEF\n".toList ]
      = none := by
  refine ⟨by decide, by decide, by decide, by decide⟩


/-! ## Key scoping -/

theorem keyIsID_of_head (key : CStr) (hne : key ≠ []) (hslash : key.head? ≠ some '/') :
    keyIsID key = true := by
  cases key with
  | nil => exact absurd rfl hne
  | cons c rest =>
    simp only [List.head?_cons, ne_eq, Option.some.injEq] at hslash
    simp [keyIsID, hslash]

/-- C6: for every non-empty key specifier that does not start with '/' and is
no entry of `ValidSigners`, and whatever the five vectors hold, key scoping
succeeds and leaves `GoodSigners` empty. -/
theorem keyScoping_unknown_key (key : CStr) (s : State)
    (hne : key ≠ []) (hslash : key.head? ≠ some '/') (hnot : key ∉ s.ValidSigners) :
    ∃ s1, keyScoping key s = some s1 ∧ s1.GoodSigners = [] := by
  simp [keyScoping, keyIsID_of_head key hne hslash, hnot]

theorem keyScoping_unknown_key_witness :
    ∃ s1, keyScoping "0123456789ABCDEF0123456789ABCDEF01234567".toList
        { GoodSigners := ["GOODSIG FEDCBA9876543210".toList],
          NoPubKeySigners := ["NO_PUBKEY 1111111111111111\n".toList],
          ValidSigners := ["FEDCBA9876543210FEDCBA9876543210FEDCBA98".toList] } = some s1
      ∧ s1.GoodSigners = [] :=
  keyScoping_unknown_key "0123456789ABCDEF0123456789ABCDEF01234567".toList
    { GoodSigners := ["GOODSIG FEDCBA9876543210".toList],
      NoPubKeySigners := ["NO_PUBKEY 1111111111111111\n".toList],
      ValidSigners := ["FEDCBA9876543210FEDCBA9876543210FEDCBA98".toList] }
    (by decide) (by decide) (by decide)

/-- C7, as stated, fails: the key specifier ABCD is non-empty, does not start
with '/' and is an entry of `ValidSigners`, yet `key.substr(24, 16)` throws
and key scoping does not return; the same from the status line that puts ABCD
into `ValidSigners`. -/
theorem keyScoping_short_key_throws :
    "ABCD".toList ≠ [] ∧ "ABCD".toList.head? ≠ some '/'
    ∧ "ABCD".toList ∈ ["ABCD".toList]
    ∧ keyScoping "ABCD".toList { ValidSigners := ["ABCD".toList] } = none
    ∧ GPGVMethod.VerifyGetSigners "ABCD".toList
        (.ran ["[GNUPG:] VALIDSIG ABCD 2016-01-01 1451606400 0 4 0 1 8 00 ABCD\n".toList] 0)
        [] [] [] [] [] = none := by
  refine ⟨by decide, by decide, by decide, by decide, by decide⟩

/-- C7, amended: for every key specifier `key` of at least 24 characters that
does not start with '/' and is an entry of `ValidSigners`, let `G` be
"GOODSIG " followed by the at most 16 characters of `key` from position 24
(the last 16 characters when `key` has 40).  Key scoping returns, and if `G`
is in the earlier `GoodSigners` then `GoodSigners` becomes `[G]` and
`NoPubKeySigners` becomes the earlier `NoPubKeySigners ++ GoodSigners` without
`G`; otherwise `GoodSigners` becomes empty and `NoPubKeySigners` becomes the
earlier `NoPubKeySigners ++ GoodSigners`.  Nothing else changes. -/
theorem keyScoping_known_key (key : CStr) (s : State)
    (hlen : 24 ≤ key.length) (hslash : key.head? ≠ some '/')
    (hfound : key ∈ s.ValidSigners) :
    (key.length = 40 → (key.drop 24).take 16 = key.drop (key.length - 16))
    ∧ ("GOODSIG ".toList ++ (key.drop 24).take 16 ∈ s.GoodSigners →
        keyScoping key s = some { s with
          GoodSigners := ["GOODSIG ".toList ++ (key.drop 24).take 16],
          NoPubKeySigners := (s.NoPubKeySigners ++ s.GoodSigners).filter
            (fun x => decide (x ≠ "GOODSIG ".toList ++ (key.drop 24).take 16)) })
    ∧ ("GOODSIG ".toList ++ (key.drop 24).take 16 ∉ s.GoodSigners →
        keyScoping key s = some { s with
          GoodSigners := [],
          NoPubKeySigners := s.NoPubKeySigners ++ s.GoodSigners }) := by
  have hne : key ≠ [] := by
    intro h
    rw [h] at hlen
    simp at hlen
  have hid := keyIsID_of_head key hne hslash
  have hsub : substr key 24 16 = some ((key.drop 24).take 16) := by
    simp [substr, hlen]
  refine ⟨?_, ?_, ?_⟩
  · intro h40
    rw [h40]
    apply List.take_of_length_le
    simp [h40]
  · intro hG
    simp at hG
    simp [keyScoping, hid, hfound, hsub, hG, erase_remove_to_end]
  · intro hG
    simp at hG
    simp [keyScoping, hid, hfound, hsub, hG]

theorem keyScoping_known_key_witness :
    ("0123456789ABCDEF0123456789ABCDEF01234567".toList.length = 40 →
      ("0123456789ABCDEF0123456789ABCDEF01234567".toList.drop 24).take 16
        = "0123456789ABCDEF0123456789ABCDEF01234567".toList.drop
            ("0123456789ABCDEF0123456789ABCDEF01234567".toList.length - 16))
    ∧ keyScoping "0123456789ABCDEF0123456789ABCDEF01234567".toList
        { GoodSigners := ["GOODSIG 89ABCDEF01234567".toList, "GOODSIG FEDCBA9876543210".toList],
          ValidSigners := ["0123456789ABCDEF0123456789ABCDEF01234567".toList] }
      = some
        { GoodSigners := ["GOODSIG 89ABCDEF01234567".toList],
          NoPubKeySigners := ["GOODSIG FEDCBA9876543210".toList],
          ValidSigners := ["0123456789ABCDEF0123456789ABCDEF01234567".toList] } :=
  have h := keyScoping_known_key "0123456789ABCDEF0123456789ABCDEF01234567".toList
    { GoodSigners := ["GOODSIG 89ABCDEF01234567".toList, "GOODSIG FEDCBA9876543210".toList],
      ValidSigners := ["0123456789ABCDEF0123456789ABCDEF01234567".toList] }
    (by decide) (by decide) (by decide)
  ⟨h.1, (h.2.1 (by decide)).trans (by decide)⟩


/-! ## The exit status and the verdict -/

/-- When the child ran, the message of `VerifyGetSigners` is the one chosen
from the exit status, computed on the vectors as left by key scoping. -/
theorem VerifyGetSigners_ran (key : CStr) (lines : List CStr) (exitstatus : Nat)
    (G B W : List CStr) (S : List Signer) (N : List CStr) (msg : CStr) (s : State)
    (h : GPGVMethod.VerifyGetSigners key (.ran lines exitstatus) G B W S N = some (msg, s)) :
    ∃ s1, statusLoop
          { GoodSigners := G, BadSigners := B, WorthlessSigners := W,
            SoonWorthlessSigners := S, NoPubKeySigners := N, ValidSigners := [] } lines
        = some s1
      ∧ keyScoping key s1 = some s
      ∧ msg = exitMessage (keyIsID key) exitstatus s.GoodSigners := by
  simp only [GPGVMethod.VerifyGetSigners, Option.bind_eq_bind, Option.bind_eq_some,
    Option.some.injEq, Prod.mk.injEq] at h
  obtain ⟨s1, h1, s2, h2, hmsg, hs⟩ := h
  subst hs
  exact ⟨s1, h1, h2, hmsg.symm⟩

theorem exitMessage_ne_nil (k : Bool) (exitstatus : Nat) (G : List CStr)
    (h : exitstatus ≠ 0) : exitMessage k exitstatus G ≠ [] := by
  unfold exitMessage
  rw [if_neg h]
  split
  · decide
  · split
    · decide
    · split
      · decide
      · decide

/-- C9: when the child ran, the message returned by `VerifyGetSigners` is
fixed by the exit status, by whether `GoodSigners` is empty on return and by
whether a key id was given to scope by: status 0 gives the empty string when
`GoodSigners` is non-empty, the invalid-signature message when it is empty and
scoping was asked for, the internal-error message when it is empty and no
scoping was asked for; status 1 gives the invalid-signature message; 111 the
could-not-execute message; 112 the clearsigned-file NODATA message; every
other status the unknown-error message. -/
theorem VerifyGetSigners_message (key : CStr) (lines : List CStr) (exitstatus : Nat)
    (G B W : List CStr) (S : List Signer) (N : List CStr) (msg : CStr) (s : State)
    (h : GPGVMethod.VerifyGetSigners key (.ran lines exitstatus) G B W S N = some (msg, s)) :
    (exitstatus = 0 → s.GoodSigners ≠ [] → msg = [])
    ∧ (exitstatus = 0 → s.GoodSigners = [] → keyIsID key = true →
        msg = "At least one invalid signature was encountered.".toList)
    ∧ (exitstatus = 0 → s.GoodSigners = [] → keyIsID key = false →
        msg = "Internal error: Good signature, but could not determine key fingerprint?!".toList)
    ∧ (exitstatus = 1 → msg = "At least one invalid signature was encountered.".toList)
    ∧ (exitstatus = 111 →
        msg = "Could not execute 'apt-key' to verify signature (is gnupg installed?)".toList)
    ∧ (exitstatus = 112 →
        msg = "Clearsigned file isn't valid, got 'NODATA' (does the network require authentication?)".toList)
    ∧ (exitstatus ≠ 0 → exitstatus ≠ 1 → exitstatus ≠ 111 → exitstatus ≠ 112 →
        msg = "Unknown error executing apt-key".toList) := by
  obtain ⟨s1, _, _, hmsg⟩ := VerifyGetSigners_ran key lines exitstatus G B W S N msg s h
  subst hmsg
  refine ⟨?_, ?_, ?_, ?_, ?_, ?_, ?_⟩
  · intro h0 hg
    cases hgs : s.GoodSigners with
    | nil => exact absurd hgs hg
    | cons a l => cases hk : keyIsID key <;> simp [exitMessage, h0]
  · intro h0 hg hk
    simp [exitMessage, h0, hg, hk, gettext]
  · intro h0 hg hk
    simp [exitMessage, h0, hg, hk, gettext]
  · intro h1
    simp [exitMessage, h1, gettext]
  · intro h1
    simp [exitMessage, h1, gettext]
  · intro h1
    subst h1
    unfold exitMessage
    rw [if_neg (by decide), if_neg (by decide), if_neg (by decide), if_pos rfl]
    decide
  · intro h0 h1 h2 h3
    simp [exitMessage, h0, h1, h2, h3, gettext]

set_option maxRecDepth 100000 in
theorem VerifyGetSigners_message_witness :
    GPGVMethod.VerifyGetSigners [] (.ran ["[GNUPG:] BADSIG 0123456789ABCDEF Example\n".toList] 1)
        [] [] [] [] []
      = some ("At least one invalid signature was encountered.".toList,
          { BadSigners := ["BADSIG 0123456789ABCDEF Example\n".toList] })
    ∧ ((1 : Nat) = 1 →
        "At least one invalid signature was encountered.".toList
          = "At least one invalid signature was encountered.".toList)
    ∧ ((1 : Nat) = 112 →
        "At least one invalid signature was encountered.".toList
          = "Clearsigned file isn't valid, got 'NODATA' (does the network require authentication?)".toList) :=
  have hrun : GPGVMethod.VerifyGetSigners []
      (.ran ["[GNUPG:] BADSIG 0123456789ABCDEF Example\n".toList] 1) [] [] [] [] []
      = some ("At least one invalid signature was encountered.".toList,
          { BadSigners := ["BADSIG 0123456789ABCDEF Example\n".toList] }) := by decide
  have h := VerifyGetSigners_message [] ["[GNUPG:] BADSIG 0123456789ABCDEF Example\n".toList] 1
    [] [] [] [] [] "At least one invalid signature was encountered.".toList
    { BadSigners := ["BADSIG 0123456789ABCDEF Example\n".toList] } hrun
  ⟨hrun, h.2.2.2.1, h.2.2.2.2.2.1⟩


theorem decision_ret (msg : CStr) (s : State) (Warnings : List CStr) :
    (decision msg s Warnings).ret = true ↔ (s.GoodSigners ≠ [] ∧ s.BadSigners = []) := by
  obtain ⟨good, bad, worthless, soon, nopub, valid⟩ := s
  cases good <;> cases bad <;> cases nopub <;> simp [decision]

/-- A run of `URIAcquire` that returns is a run of `VerifyGetSigners`, of the
weak-digest report and of the decision. -/
theorem URIAcquire_some (key : CStr) (child : Subprocess) (r : Result)
    (h : GPGVMethod.URIAcquire key child = some r) :
    ∃ msg s Warnings,
      GPGVMethod.VerifyGetSigners key child [] [] [] [] [] = some (msg, s)
      ∧ weakDigestWarnings s = some Warnings
      ∧ r = decision msg s Warnings := by
  simp only [GPGVMethod.URIAcquire, Option.bind_eq_bind, Option.bind_eq_some,
    Option.some.injEq] at h
  obtain ⟨⟨msg, s⟩, hv, Warnings, hw, hr⟩ := h
  exact ⟨msg, s, Warnings, hv, hw, hr.symm⟩

set_option maxRecDepth 100000 in
/-- C2, as stated, fails: with one `GOODSIG` line and one `NO_PUBKEY` line the
child may exit with status 1, `VerifyGetSigners` returns the invalid-signature
message, and `URIAcquire` still accepts, because `GoodSigners` is non-empty
and `BadSigners` is empty. -/
theorem URIAcquire_accepts_with_exit_status_one :
    (1 : Nat) ≠ 0
    ∧ (GPGVMethod.VerifyGetSigners []
        (.ran [ "[GNUPG:] GOODSIG 0123456789ABCDEF Example <e@example>\n".toList,
                "[GNUPG:] NO_PUBKEY FEDCBA9876543210\n".toList ] 1) [] [] [] [] []).map
        (fun p => p.1) = some "At least one invalid signature was encountered.".toList
    ∧ GPGVMethod.URIAcquire []
        (.ran [ "[GNUPG:] GOODSIG 0123456789ABCDEF Example <e@example>\n".toList,
                "[GNUPG:] NO_PUBKEY FEDCBA9876543210\n".toList ] 1)
      = some
        { ret := true, Error := none, Warnings := [],
          GPGVOutput := some [ "GOODSIG 0123456789ABCDEF".toList,
                               "NO_PUBKEY FEDCBA9876543210\n".toList ] } := by
  refine ⟨by decide, by decide, by decide⟩

/-- C2, amended: for every key specifier and every run of the child, a
non-zero exit status makes `VerifyGetSigners` return a non-empty message, but
the verdict of `URIAcquire` does not look at the exit status: it is rejected
exactly when `GoodSigners` is empty or `BadSigners` is non-empty, and so, with
exit status 0 as with any other, it is accepted only if `GoodSigners` is
non-empty. -/
theorem URIAcquire_verdict (key : CStr) (lines : List CStr) (exitstatus : Nat) (r : Result)
    (h : GPGVMethod.URIAcquire key (.ran lines exitstatus) = some r) :
    ∃ msg s,
      GPGVMethod.VerifyGetSigners key (.ran lines exitstatus) [] [] [] [] [] = some (msg, s)
      ∧ (exitstatus ≠ 0 → msg ≠ [])
      ∧ (r.ret = false ↔ (s.GoodSigners = [] ∨ s.BadSigners ≠ []))
      ∧ (r.ret = true → s.GoodSigners ≠ []) := by
  obtain ⟨msg, s, Warnings, hv, _, hr⟩ := URIAcquire_some key _ r h
  subst hr
  have hret := decision_ret msg s Warnings
  refine ⟨msg, s, hv, ?_, ?_, ?_⟩
  · intro hne
    obtain ⟨_, _, _, hmsg⟩ := VerifyGetSigners_ran key lines exitstatus [] [] [] [] [] msg s hv
    rw [hmsg]
    exact exitMessage_ne_nil _ _ _ hne
  · rw [← Bool.not_eq_true, hret]
    constructor
    · intro hn
      by_cases hg : s.GoodSigners = []
      · exact Or.inl hg
      · right
        intro hb
        exact hn ⟨hg, hb⟩
    · rintro (hg | hb) ⟨hg1, hb1⟩
      · exact hg1 hg
      · exact hb hb1
  · intro ht
    exact (hret.mp ht).1

set_option maxRecDepth 100000 in
theorem URIAcquire_verdict_witness :
    GPGVMethod.URIAcquire [] (.ran ["[GNUPG:] BADSIG 0123456789ABCDEF Example\n".toList] 1)
      = some
        { ret := false,
          Error := some "The following signatures were invalid:\nBADSIG 0123456789ABCDEF Example\n\n".toList,
          Warnings := [], GPGVOutput := none }
    ∧ ∃ msg s,
      GPGVMethod.VerifyGetSigners [] (.ran ["[GNUPG:] BADSIG 0123456789ABCDEF Example\n".toList] 1)
          [] [] [] [] [] = some (msg, s)
      ∧ ((1 : Nat) ≠ 0 → msg ≠ [])
      ∧ (false = false ↔ (s.GoodSigners = [] ∨ s.BadSigners ≠ []))
      ∧ (false = true → s.GoodSigners ≠ []) :=
  ⟨by decide,
   URIAcquire_verdict [] ["[GNUPG:] BADSIG 0123456789ABCDEF Example\n".toList] 1
    { ret := false,
      Error := some "The following signatures were invalid:\nBADSIG 0123456789ABCDEF Example\n\n".toList,
      Warnings := [], GPGVOutput := none } (by decide)⟩

/-! ## The weak-digest report -/

set_option maxRecDepth 100000 in
/-- C10: a `GOODSIG` line with the long key id and a `VALIDSIG` line with the
fingerprint and digest id 2 (SHA1) leave one entry in `GoodSigners` and one in
`SoonWorthlessSigners`.  The entry of `GoodSigners` is not the `GOODSIG` entry
of the soon-worthless key, so no warning is due; the code searches the copy of
`GoodSigners` for "GOODSIG " followed by the fingerprint, finds no element and
erases `end()`, so neither the report nor `URIAcquire` has a defined outcome. -/
theorem weak_digest_report_erases_end :
    GPGVMethod.VerifyGetSigners []
        (.ran [ "[GNUPG:] GOODSIG 89ABCDEF01234567 Example <e@example>\n".toList,
                "[GNUPG:] VALIDSIG 0123456789ABCDEF0123456789ABCDEF01234567 2016-01-01 1451606400 0 4 0 1 2 00 0123456789ABCDEF0123456789ABCDEF01234567\n".toList ] 0)
        [] [] [] [] []
      = some ([],
          { GoodSigners := ["GOODSIG 89ABCDEF01234567".toList],
            SoonWorthlessSigners :=
              [⟨"0123456789ABCDEF0123456789ABCDEF01234567".toList, "SHA1".toList⟩],
            ValidSigners := ["0123456789ABCDEF0123456789ABCDEF01234567".toList] })
    ∧ "GOODSIG 89ABCDEF01234567".toList
        ≠ "GOODSIG ".toList ++ "0123456789ABCDEF0123456789ABCDEF01234567".toList
    ∧ NotWarnAboutSigners ["GOODSIG 89ABCDEF01234567".toList]
        [⟨"0123456789ABCDEF0123456789ABCDEF01234567".toList, "SHA1".toList⟩] = none
    ∧ weakDigestWarnings
        { GoodSigners := ["GOODSIG 89ABCDEF01234567".toList],
          SoonWorthlessSigners :=
            [⟨"0123456789ABCDEF0123456789ABCDEF01234567".toList, "SHA1".toList⟩],
          ValidSigners := ["0123456789ABCDEF0123456789ABCDEF01234567".toList] } = none
    ∧ GPGVMethod.URIAcquire []
        (.ran [ "[GNUPG:] GOODSIG 89ABCDEF01234567 Example <e@example>\n".toList,
                "[GNUPG:] VALIDSIG 0123456789ABCDEF0123456789ABCDEF01234567 2016-01-01 1451606400 0 4 0 1 2 00 0123456789ABCDEF0123456789ABCDEF01234567\n".toList ] 0)
      = none := by
  refine ⟨by decide, by decide, by decide, by decide, by decide⟩


/-! ## The dispatch on the tag -/

theorem strncmp_eq_iff_begins (buffer tag : CStr) :
    strncmp_eq buffer tag tag.length = true ↔ tag <+: buffer := by
  simp only [strncmp_eq, decide_eq_true_eq, List.take_length]
  rw [List.prefix_iff_eq_take]
  exact eq_comm

/-- A `BADSIG` line appends the text after the prefix to `BadSigners`. -/
theorem processLine_badsig (s : State) (rest : CStr) :
    processLine s ("[GNUPG:] BADSIG".toList ++ rest)
      = some { s with BadSigners := s.BadSigners ++ ["BADSIG".toList ++ rest] } := by
  simp [processLine, strncmp_eq, GNUPGBADSIG, GNUPGPREFIX, sizeof, cstrAt]

/-- A `NO_PUBKEY` line appends the text after the prefix to `NoPubKeySigners`. -/
theorem processLine_nopubkey (s : State) (rest : CStr) :
    processLine s ("[GNUPG:] NO_PUBKEY".toList ++ rest)
      = some { s with NoPubKeySigners := s.NoPubKeySigners ++ ["NO_PUBKEY".toList ++ rest] } := by
  simp [processLine, strncmp_eq, GNUPGBADSIG, GNUPGNOPUBKEY, GNUPGPREFIX, sizeof, cstrAt]

/-- A `NODATA` line appends the text after the prefix to `BadSigners`. -/
theorem processLine_nodata (s : State) (rest : CStr) :
    processLine s ("[GNUPG:] NODATA".toList ++ rest)
      = some { s with BadSigners := s.BadSigners ++ ["NODATA".toList ++ rest] } := by
  simp [processLine, strncmp_eq, GNUPGBADSIG, GNUPGNOPUBKEY, GNUPGNODATA, GNUPGPREFIX, sizeof,
    cstrAt]

/-- A `KEYEXPIRED` line appends the text after the prefix to `WorthlessSigners`. -/
theorem processLine_keyexpired (s : State) (rest : CStr) :
    processLine s ("[GNUPG:] KEYEXPIRED".toList ++ rest)
      = some { s with WorthlessSigners := s.WorthlessSigners ++ ["KEYEXPIRED".toList ++ rest] } := by
  simp [processLine, strncmp_eq, GNUPGBADSIG, GNUPGNOPUBKEY, GNUPGNODATA, GNUPGKEYEXPIRED,
    GNUPGPREFIX, sizeof, cstrAt]

/-- A `REVKEYSIG` line appends the text after the prefix to `WorthlessSigners`. -/
theorem processLine_revkeysig (s : State) (rest : CStr) :
    processLine s ("[GNUPG:] REVKEYSIG".toList ++ rest)
      = some { s with WorthlessSigners := s.WorthlessSigners ++ ["REVKEYSIG".toList ++ rest] } := by
  simp [processLine, strncmp_eq, GNUPGBADSIG, GNUPGNOPUBKEY, GNUPGNODATA, GNUPGKEYEXPIRED,
    GNUPGREVKEYSIG, GNUPGPREFIX, sizeof, cstrAt]

/-- A line carrying the `GOODSIG` tag reaches the `GOODSIG` branch. -/
theorem processLine_goodsig (s : State) (buffer : CStr)
    (htag : strncmp_eq buffer GNUPGGOODSIG (sizeof GNUPGGOODSIG - 1) = true) :
    processLine s buffer = goodsigBranch s buffer := by
  have h1 : strncmp_eq buffer GNUPGBADSIG (sizeof GNUPGBADSIG - 1) = false :=
    strncmp_eq_exclusive htag (by decide)
  have h2 : strncmp_eq buffer GNUPGNOPUBKEY (sizeof GNUPGNOPUBKEY - 1) = false :=
    strncmp_eq_exclusive htag (by decide)
  have h3 : strncmp_eq buffer GNUPGNODATA (sizeof GNUPGBADSIG - 1) = false :=
    strncmp_eq_exclusive htag (by decide)
  have h4 : strncmp_eq buffer GNUPGKEYEXPIRED (sizeof GNUPGKEYEXPIRED - 1) = false :=
    strncmp_eq_exclusive htag (by decide)
  have h5 : strncmp_eq buffer GNUPGREVKEYSIG (sizeof GNUPGREVKEYSIG - 1) = false :=
    strncmp_eq_exclusive htag (by decide)
  simp [processLine, h1, h2, h3, h4, h5, htag]

/-- A line that carries none of the seven tags leaves the vectors as they are. -/
theorem processLine_untagged (s : State) (buffer : CStr)
    (h1 : ¬ GNUPGBADSIG <+: buffer) (h2 : ¬ GNUPGNOPUBKEY <+: buffer)
    (h3 : ¬ GNUPGNODATA <+: buffer) (h4 : ¬ GNUPGKEYEXPIRED <+: buffer)
    (h5 : ¬ GNUPGREVKEYSIG <+: buffer) (h6 : ¬ GNUPGGOODSIG <+: buffer)
    (h7 : ¬ GNUPGVALIDSIG <+: buffer) :
    processLine s buffer = some s := by
  rw [← strncmp_eq_iff_begins, Bool.not_eq_true] at h1 h2 h3 h4 h5 h6 h7
  have g1 : strncmp_eq buffer GNUPGBADSIG (sizeof GNUPGBADSIG - 1) = false := h1
  have g2 : strncmp_eq buffer GNUPGNOPUBKEY (sizeof GNUPGNOPUBKEY - 1) = false := h2
  have g3 : strncmp_eq buffer GNUPGNODATA (sizeof GNUPGBADSIG - 1) = false := h3
  have g4 : strncmp_eq buffer GNUPGKEYEXPIRED (sizeof GNUPGKEYEXPIRED - 1) = false := h4
  have g5 : strncmp_eq buffer GNUPGREVKEYSIG (sizeof GNUPGREVKEYSIG - 1) = false := h5
  have g6 : strncmp_eq buffer GNUPGGOODSIG (sizeof GNUPGGOODSIG - 1) = false := h6
  have g7 : strncmp_eq buffer GNUPGVALIDSIG (sizeof GNUPGVALIDSIG - 1) = false := h7
  simp [processLine, g1, g2, g3, g4, g5, g6, g7]

/-- The `GOODSIG` branch on a line with the tag and a character after it. -/
theorem goodsigBranch_eq (s : State) (c : Char) (rest : CStr) :
    goodsigBranch s ("[GNUPG:] GOODSIG".toList ++ c :: rest)
      = some { s with GoodSigners :=
          s.GoodSigners ++ ["GOODSIG".toList ++ c :: rest.takeWhile isxdigit] } := by
  have htake : ∀ l : CStr, l.take (l.takeWhile isxdigit).length = l.takeWhile isxdigit := by
    intro l
    induction l with
    | nil => rfl
    | cons a t ih =>
      by_cases ha : isxdigit a = true
      · simp [List.takeWhile_cons, ha, ih]
      · simp [List.takeWhile_cons, ha]
  simp only [goodsigBranch, GNUPGPREFIX, sizeof, cstrAt, String.toList, List.length_cons,
    List.length_nil, List.length_append, List.cons_append, List.nil_append,
    Option.bind_eq_bind, Option.some_bind, Option.some.injEq]
  rw [if_pos (by omega), if_pos (by omega)]
  simp only [Option.some_bind, List.drop_succ_cons, List.drop_zero, Option.some.injEq]
  have h8 : 7 + 1 + (List.takeWhile isxdigit rest).length
      = (List.takeWhile isxdigit rest).length + 1 + 1 + 1 + 1 + 1 + 1 + 1 + 1 := by omega
  rw [h8]
  simp only [List.take_succ_cons, htake]


/-! ## The entries written by the status loop -/

/-- What a returning run of the `VALIDSIG` branch did. -/
theorem validsigBranch_some (s s1 : State) (buffer : CStr)
    (h : validsigBranch s buffer = some s1) :
    ∃ token d,
      (istream_tokens (buffer.drop (sizeof GNUPGVALIDSIG)))[7]? = some token
      ∧ FindDigest token = some d
      ∧ ((d.state = .Trusted ∧ s1 = { s with
            ValidSigners := s.ValidSigners
              ++ [(buffer.drop (sizeof GNUPGVALIDSIG)).takeWhile isxdigit] })
        ∨ (d.state = .Weak ∧ s1 = { s with
            SoonWorthlessSigners := s.SoonWorthlessSigners
              ++ [⟨(buffer.drop (sizeof GNUPGVALIDSIG)).takeWhile isxdigit, d.name⟩],
            ValidSigners := s.ValidSigners
              ++ [(buffer.drop (sizeof GNUPGVALIDSIG)).takeWhile isxdigit] })
        ∨ (d.state = .Untrusted ∧ ∃ good,
            erase_remove s.GoodSigners ((buffer.drop (sizeof GNUPGVALIDSIG)).takeWhile isxdigit)
              = some good
            ∧ s1 = { s with
              WorthlessSigners := s.WorthlessSigners
                ++ [(buffer.drop (sizeof GNUPGVALIDSIG)).takeWhile isxdigit],
              GoodSigners := good,
              ValidSigners := s.ValidSigners
                ++ [(buffer.drop (sizeof GNUPGVALIDSIG)).takeWhile isxdigit] })) := by
  simp only [validsigBranch, Option.bind_eq_bind, Option.bind_eq_some, Option.some.injEq] at h
  obtain ⟨sig, hsig, token, htok, d, hd, s2, hs2, hs1⟩ := h
  have hsig2 : sig = buffer.drop (sizeof GNUPGVALIDSIG) := by
    unfold cstrAt at hsig
    split at hsig
    · exact (Option.some.inj hsig).symm
    · cases hsig
  subst hsig2
  refine ⟨token, d, htok, hd, ?_⟩
  cases hst : d.state with
  | Trusted =>
    left
    rw [hst] at hs2
    simp only [Option.some.injEq] at hs2
    subst hs2
    exact ⟨rfl, hs1.symm⟩
  | Weak =>
    right; left
    rw [hst] at hs2
    simp only [Option.some.injEq] at hs2
    subst hs2
    exact ⟨rfl, hs1.symm⟩
  | Untrusted =>
    right; right
    rw [hst] at hs2
    simp only [Option.map_eq_some'] at hs2
    obtain ⟨good, hgood, hs2⟩ := hs2
    subst hs2
    exact ⟨rfl, good, hgood, hs1.symm⟩

/-- A run of hexadecimal digits is no entry of a vector whose entries begin
with "GOODSIG". -/
theorem hexrun_not_mem (v : List CStr) (hv : ∀ e ∈ v, "GOODSIG".toList <+: e) (l : CStr) :
    l.takeWhile isxdigit ∉ v := by
  intro hmem
  obtain ⟨t, ht⟩ := hv _ hmem
  have hG : 'G' ∈ l.takeWhile isxdigit := by
    rw [← ht]
    simp
  have hx : isxdigit 'G' = true := List.mem_takeWhile_imp hG
  exact absurd hx (by decide)

/-- The one-iterator erase returns only when the value is in the vector. -/
theorem erase_remove_some_mem (v good : List CStr) (value : CStr)
    (h : erase_remove v value = some good) : value ∈ v := by
  unfold erase_remove at h
  split at h
  · rename_i hc
    have hpos : 0 < v.count value := by omega
    exact List.count_pos_iff.mp hpos
  · cases h

/-- One turn of the loop keeps the shape of the entries; on vectors of that
shape the Untrusted `VALIDSIG` case never returns. -/
theorem processLine_tagged (s s1 : State) (buffer : CStr)
    (hs : TaggedEntries s) (h : processLine s buffer = some s1) :
    TaggedEntries s1 := by
  obtain ⟨hg, hb, hw⟩ := hs
  by_cases h1 : GNUPGBADSIG <+: buffer
  · obtain ⟨rest, rfl⟩ := h1
    rw [show GNUPGBADSIG = "[GNUPG:] BADSIG".toList from rfl, processLine_badsig] at h
    cases h
    refine ⟨hg, ?_, hw⟩
    intro e he
    rcases List.mem_append.mp he with he | he
    · exact hb e he
    · left
      rw [List.mem_singleton.mp he]
      exact List.prefix_append _ _
  by_cases h2 : GNUPGNOPUBKEY <+: buffer
  · obtain ⟨rest, rfl⟩ := h2
    rw [show GNUPGNOPUBKEY = "[GNUPG:] NO_PUBKEY".toList from rfl, processLine_nopubkey] at h
    cases h
    exact ⟨hg, hb, hw⟩
  by_cases h3 : GNUPGNODATA <+: buffer
  · obtain ⟨rest, rfl⟩ := h3
    rw [show GNUPGNODATA = "[GNUPG:] NODATA".toList from rfl, processLine_nodata] at h
    cases h
    refine ⟨hg, ?_, hw⟩
    intro e he
    rcases List.mem_append.mp he with he | he
    · exact hb e he
    · right
      rw [List.mem_singleton.mp he]
      exact List.prefix_append _ _
  by_cases h4 : GNUPGKEYEXPIRED <+: buffer
  · obtain ⟨rest, rfl⟩ := h4
    rw [show GNUPGKEYEXPIRED = "[GNUPG:] KEYEXPIRED".toList from rfl, processLine_keyexpired] at h
    cases h
    refine ⟨hg, hb, ?_⟩
    intro e he
    rcases List.mem_append.mp he with he | he
    · exact hw e he
    · left
      rw [List.mem_singleton.mp he]
      exact List.prefix_append _ _
  by_cases h5 : GNUPGREVKEYSIG <+: buffer
  · obtain ⟨rest, rfl⟩ := h5
    rw [show GNUPGREVKEYSIG = "[GNUPG:] REVKEYSIG".toList from rfl, processLine_revkeysig] at h
    cases h
    refine ⟨hg, hb, ?_⟩
    intro e he
    rcases List.mem_append.mp he with he | he
    · exact hw e he
    · right
      rw [List.mem_singleton.mp he]
      exact List.prefix_append _ _
  by_cases h6 : GNUPGGOODSIG <+: buffer
  · have htag : strncmp_eq buffer GNUPGGOODSIG (sizeof GNUPGGOODSIG - 1) = true :=
      (strncmp_eq_iff_begins buffer GNUPGGOODSIG).mpr h6
    rw [processLine_goodsig s buffer htag] at h
    obtain ⟨rest, rfl⟩ := h6
    cases rest with
    | nil => exact absurd h (by simp [goodsigBranch, cstrAt, sizeof, GNUPGGOODSIG, GNUPGPREFIX])
    | cons c r =>
      rw [show GNUPGGOODSIG = "[GNUPG:] GOODSIG".toList from rfl, goodsigBranch_eq] at h
      cases h
      refine ⟨?_, hb, hw⟩
      intro e he
      rcases List.mem_append.mp he with he | he
      · exact hg e he
      · rw [List.mem_singleton.mp he]
        exact List.prefix_append _ _
  by_cases h7 : GNUPGVALIDSIG <+: buffer
  · have htag : strncmp_eq buffer GNUPGVALIDSIG (sizeof GNUPGVALIDSIG - 1) = true :=
      (strncmp_eq_iff_begins buffer GNUPGVALIDSIG).mpr h7
    rw [processLine_validsig s buffer htag] at h
    obtain ⟨token, d, _, _, hcase⟩ := validsigBranch_some s s1 buffer h
    rcases hcase with ⟨_, rfl⟩ | ⟨_, rfl⟩ | ⟨_, good, hgood, _⟩
    · exact ⟨hg, hb, hw⟩
    · exact ⟨hg, hb, hw⟩
    · exact absurd (erase_remove_some_mem _ _ _ hgood) (hexrun_not_mem _ hg _)
  · rw [processLine_untagged s buffer h1 h2 h3 h4 h5 h6 h7] at h
    cases h
    exact ⟨hg, hb, hw⟩

/-- The status loop keeps the shape of the entries. -/
theorem statusLoop_tagged (lines : List CStr) (s s1 : State)
    (hs : TaggedEntries s) (h : statusLoop s lines = some s1) : TaggedEntries s1 := by
  induction lines generalizing s with
  | nil =>
    simp only [statusLoop, Option.some.injEq] at h
    subst h
    exact hs
  | cons buffer rest ih =>
    simp only [statusLoop, Option.bind_eq_some] at h
    obtain ⟨s2, h2, h3⟩ := h
    exact ih s2 (processLine_tagged s s2 buffer hs h2) h3

theorem TaggedEntries_empty : TaggedEntries {} := by
  refine ⟨?_, ?_, ?_⟩ <;> intro e he <;> cases he


theorem prefix_clash {a b e : CStr} (ha : a <+: e) (hb : b <+: e)
    (hne : a.head? ≠ b.head?) (hna : a ≠ []) (hnb : b ≠ []) : False := by
  obtain ⟨t, rfl⟩ := ha
  obtain ⟨u, hu⟩ := hb
  cases a with
  | nil => exact hna rfl
  | cons x xs =>
    cases b with
    | nil => exact hnb rfl
    | cons y ys =>
      simp only [List.cons_append, List.cons.injEq] at hu
      apply hne
      simp [hu.1]

/-- A run of hexadecimal digits does not begin with a word that has another
character in it. -/
theorem hex_not_tagged {tag e : CStr} (he : ∀ c ∈ e, isxdigit c = true) (ht : tag <+: e)
    (hx : ∃ c ∈ tag, isxdigit c = false) : False := by
  obtain ⟨t, rfl⟩ := ht
  obtain ⟨c, hc, hcx⟩ := hx
  have := he c (List.mem_append_left t hc)
  rw [hcx] at this
  cases this

/-- Vectors of these shapes share no entry. -/
theorem EntryShapes_disjoint (s : State) (hs : EntryShapes s) :
    List.Disjoint s.GoodSigners s.BadSigners
    ∧ List.Disjoint s.GoodSigners s.WorthlessSigners
    ∧ List.Disjoint s.BadSigners s.WorthlessSigners := by
  obtain ⟨hg, hb, hw⟩ := hs
  refine ⟨?_, ?_, ?_⟩
  · intro e h1 h2
    rcases hb e h2 with h | h
    · exact prefix_clash (hg e h1) h (by decide) (by decide) (by decide)
    · exact prefix_clash (hg e h1) h (by decide) (by decide) (by decide)
  · intro e h1 h2
    rcases hw e h2 with h | h | h
    · exact prefix_clash (hg e h1) h (by decide) (by decide) (by decide)
    · exact prefix_clash (hg e h1) h (by decide) (by decide) (by decide)
    · exact hex_not_tagged h (hg e h1) ⟨'G', by decide, by decide⟩
  · intro e h1 h2
    rcases hb e h1 with h | h <;> rcases hw e h2 with h' | h' | h'
    · exact prefix_clash h h' (by decide) (by decide) (by decide)
    · exact prefix_clash h h' (by decide) (by decide) (by decide)
    · exact hex_not_tagged h' h ⟨'S', by decide, by decide⟩
    · exact prefix_clash h h' (by decide) (by decide) (by decide)
    · exact prefix_clash h h' (by decide) (by decide) (by decide)
    · exact hex_not_tagged h' h ⟨'N', by decide, by decide⟩

theorem EntryShapes_empty : EntryShapes {} := by
  refine ⟨?_, ?_, ?_⟩ <;> intro e he <;> cases he

/-- With `erase_remove` for the open statement the loop is the status loop. -/
theorem statusLoopWith_erase_remove (s : State) (lines : List CStr) :
    statusLoopWith erase_remove s lines = statusLoop s lines := by
  induction lines generalizing s with
  | nil => rfl
  | cons buffer rest ih =>
    have hline : processLineWith erase_remove s buffer = processLine s buffer := rfl
    simp only [statusLoopWith, statusLoop, hline, ih]

/-- Off the `VALIDSIG` tag the open statement is not reached. -/
theorem processLineWith_other (erase : List CStr → CStr → Option (List CStr))
    (s : State) (buffer : CStr) (h : ¬ GNUPGVALIDSIG <+: buffer) :
    processLineWith erase s buffer = processLine s buffer := by
  rw [← strncmp_eq_iff_begins, Bool.not_eq_true] at h
  have g : strncmp_eq buffer GNUPGVALIDSIG (sizeof GNUPGVALIDSIG - 1) = false := h
  simp only [processLineWith, processLine, g, Bool.false_eq_true, if_false]

/-- A line carrying the `VALIDSIG` tag reaches the `VALIDSIG` branch. -/
theorem processLineWith_validsig (erase : List CStr → CStr → Option (List CStr))
    (s : State) (buffer : CStr)
    (htag : strncmp_eq buffer GNUPGVALIDSIG (sizeof GNUPGVALIDSIG - 1) = true) :
    processLineWith erase s buffer = validsigBranchWith erase s buffer := by
  have h1 : strncmp_eq buffer GNUPGBADSIG (sizeof GNUPGBADSIG - 1) = false :=
    strncmp_eq_exclusive htag (by decide)
  have h2 : strncmp_eq buffer GNUPGNOPUBKEY (sizeof GNUPGNOPUBKEY - 1) = false :=
    strncmp_eq_exclusive htag (by decide)
  have h3 : strncmp_eq buffer GNUPGNODATA (sizeof GNUPGBADSIG - 1) = false :=
    strncmp_eq_exclusive htag (by decide)
  have h4 : strncmp_eq buffer GNUPGKEYEXPIRED (sizeof GNUPGKEYEXPIRED - 1) = false :=
    strncmp_eq_exclusive htag (by decide)
  have h5 : strncmp_eq buffer GNUPGREVKEYSIG (sizeof GNUPGREVKEYSIG - 1) = false :=
    strncmp_eq_exclusive htag (by decide)
  have h6 : strncmp_eq buffer GNUPGGOODSIG (sizeof GNUPGGOODSIG - 1) = false :=
    strncmp_eq_exclusive htag (by decide)
  simp [processLineWith, h1, h2, h3, h4, h5, h6, htag]

/-- What a returning run of the `VALIDSIG` branch did to the three vectors. -/
theorem validsigBranchWith_some (erase : List CStr → CStr → Option (List CStr))
    (s s1 : State) (buffer : CStr) (h : validsigBranchWith erase s buffer = some s1) :
    s1.BadSigners = s.BadSigners
    ∧ ((s1.GoodSigners = s.GoodSigners ∧ s1.WorthlessSigners = s.WorthlessSigners)
      ∨ (erase s.GoodSigners ((buffer.drop (sizeof GNUPGVALIDSIG)).takeWhile isxdigit)
            = some s1.GoodSigners
          ∧ s1.WorthlessSigners = s.WorthlessSigners
              ++ [(buffer.drop (sizeof GNUPGVALIDSIG)).takeWhile isxdigit])) := by
  simp only [validsigBranchWith, Option.bind_eq_bind, Option.bind_eq_some,
    Option.some.injEq] at h
  obtain ⟨sig, hsig, token, _, d, _, s2, hs2, hs1⟩ := h
  have hsig2 : sig = buffer.drop (sizeof GNUPGVALIDSIG) := by
    unfold cstrAt at hsig
    split at hsig
    · exact (Option.some.inj hsig).symm
    · cases hsig
  subst hsig2
  subst hs1
  cases hst : d.state with
  | Trusted =>
    rw [hst] at hs2
    simp only [Option.some.injEq] at hs2
    subst hs2
    exact ⟨rfl, Or.inl ⟨rfl, rfl⟩⟩
  | Weak =>
    rw [hst] at hs2
    simp only [Option.some.injEq] at hs2
    subst hs2
    exact ⟨rfl, Or.inl ⟨rfl, rfl⟩⟩
  | Untrusted =>
    rw [hst] at hs2
    simp only [Option.map_eq_some'] at hs2
    obtain ⟨good, hgood, hs2⟩ := hs2
    subst hs2
    exact ⟨rfl, Or.inr ⟨hgood, rfl⟩⟩

/-- One turn of the loop keeps the shapes, whatever the open statement leaves
in `GoodSigners`, as long as it leaves only entries that were there. -/
theorem processLineWith_shapes (erase : List CStr → CStr → Option (List CStr))
    (herase : ∀ v x g, erase v x = some g → ∀ e ∈ g, e ∈ v)
    (s s1 : State) (buffer : CStr)
    (hs : EntryShapes s) (h : processLineWith erase s buffer = some s1) :
    EntryShapes s1 := by
  obtain ⟨hg, hb, hw⟩ := hs
  by_cases h7 : GNUPGVALIDSIG <+: buffer
  · have htag : strncmp_eq buffer GNUPGVALIDSIG (sizeof GNUPGVALIDSIG - 1) = true :=
      (strncmp_eq_iff_begins buffer GNUPGVALIDSIG).mpr h7
    rw [processLineWith_validsig erase s buffer htag] at h
    obtain ⟨hbad, hcase⟩ := validsigBranchWith_some erase s s1 buffer h
    rcases hcase with ⟨hgood, hworth⟩ | ⟨hgood, hworth⟩
    · refine ⟨?_, ?_, ?_⟩
      · rw [hgood]; exact hg
      · rw [hbad]; exact hb
      · rw [hworth]; exact hw
    · refine ⟨?_, ?_, ?_⟩
      · intro e he
        exact hg e (herase _ _ _ hgood e he)
      · rw [hbad]; exact hb
      · rw [hworth]
        intro e he
        rcases List.mem_append.mp he with he | he
        · exact hw e he
        · right; right
          rw [List.mem_singleton.mp he]
          intro c hc
          exact List.mem_takeWhile_imp hc
  rw [processLineWith_other erase s buffer h7] at h
  by_cases h1 : GNUPGBADSIG <+: buffer
  · obtain ⟨rest, rfl⟩ := h1
    rw [show GNUPGBADSIG = "[GNUPG:] BADSIG".toList from rfl, processLine_badsig] at h
    cases h
    refine ⟨hg, ?_, hw⟩
    intro e he
    rcases List.mem_append.mp he with he | he
    · exact hb e he
    · left
      rw [List.mem_singleton.mp he]
      exact List.prefix_append _ _
  by_cases h2 : GNUPGNOPUBKEY <+: buffer
  · obtain ⟨rest, rfl⟩ := h2
    rw [show GNUPGNOPUBKEY = "[GNUPG:] NO_PUBKEY".toList from rfl, processLine_nopubkey] at h
    cases h
    exact ⟨hg, hb, hw⟩
  by_cases h3 : GNUPGNODATA <+: buffer
  · obtain ⟨rest, rfl⟩ := h3
    rw [show GNUPGNODATA = "[GNUPG:] NODATA".toList from rfl, processLine_nodata] at h
    cases h
    refine ⟨hg, ?_, hw⟩
    intro e he
    rcases List.mem_append.mp he with he | he
    · exact hb e he
    · right
      rw [List.mem_singleton.mp he]
      exact List.prefix_append _ _
  by_cases h4 : GNUPGKEYEXPIRED <+: buffer
  · obtain ⟨rest, rfl⟩ := h4
    rw [show GNUPGKEYEXPIRED = "[GNUPG:] KEYEXPIRED".toList from rfl, processLine_keyexpired] at h
    cases h
    refine ⟨hg, hb, ?_⟩
    intro e he
    rcases List.mem_append.mp he with he | he
    · exact hw e he
    · left
      rw [List.mem_singleton.mp he]
      exact List.prefix_append _ _
  by_cases h5 : GNUPGREVKEYSIG <+: buffer
  · obtain ⟨rest, rfl⟩ := h5
    rw [show GNUPGREVKEYSIG = "[GNUPG:] REVKEYSIG".toList from rfl, processLine_revkeysig] at h
    cases h
    refine ⟨hg, hb, ?_⟩
    intro e he
    rcases List.mem_append.mp he with he | he
    · exact hw e he
    · right; left
      rw [List.mem_singleton.mp he]
      exact List.prefix_append _ _
  by_cases h6 : GNUPGGOODSIG <+: buffer
  · have htag : strncmp_eq buffer GNUPGGOODSIG (sizeof GNUPGGOODSIG - 1) = true :=
      (strncmp_eq_iff_begins buffer GNUPGGOODSIG).mpr h6
    rw [processLine_goodsig s buffer htag] at h
    obtain ⟨rest, rfl⟩ := h6
    cases rest with
    | nil => exact absurd h (by simp [goodsigBranch, cstrAt, sizeof, GNUPGGOODSIG, GNUPGPREFIX])
    | cons c r =>
      rw [show GNUPGGOODSIG = "[GNUPG:] GOODSIG".toList from rfl, goodsigBranch_eq] at h
      cases h
      refine ⟨?_, hb, hw⟩
      intro e he
      rcases List.mem_append.mp he with he | he
      · exact hg e he
      · rw [List.mem_singleton.mp he]
        exact List.prefix_append _ _
  · rw [processLine_untagged s buffer h1 h2 h3 h4 h5 h6 h7] at h
    cases h
    exact ⟨hg, hb, hw⟩

/-- The loop keeps the shapes, under the same condition. -/
theorem statusLoopWith_shapes (erase : List CStr → CStr → Option (List CStr))
    (herase : ∀ v x g, erase v x = some g → ∀ e ∈ g, e ∈ v)
    (lines : List CStr) (s s1 : State)
    (hs : EntryShapes s) (h : statusLoopWith erase s lines = some s1) : EntryShapes s1 := by
  induction lines generalizing s with
  | nil =>
    simp only [statusLoopWith, Option.some.injEq] at h
    subst h
    exact hs
  | cons buffer rest ih =>
    simp only [statusLoopWith, Option.bind_eq_some] at h
    obtain ⟨s2, h2, h3⟩ := h
    exact ih s2 (processLineWith_shapes erase herase s s2 buffer hs h2) h3

set_option maxRecDepth 100000 in
/-- C11, as stated, fails: after a `GOODSIG` line and a `BADSIG` line for the
key 0123456789ABCDEF, processed from empty vectors with no key scoping, that
key identifier is carried by an entry of `GoodSigners` and by an entry of
`BadSigners`. -/
theorem same_key_good_and_bad :
    statusLoop {}
        [ "[GNUPG:] GOODSIG 0123456789ABCDEF Example <e@example>\n".toList,
          "[GNUPG:] BADSIG 0123456789ABCDEF Example <e@example>\n".toList ]
      = some
        { GoodSigners := ["GOODSIG 0123456789ABCDEF".toList],
          BadSigners := ["BADSIG 0123456789ABCDEF Example <e@example>\n".toList] }
    ∧ signerKey "GOODSIG 0123456789ABCDEF".toList = "0123456789ABCDEF".toList
    ∧ signerKey "BADSIG 0123456789ABCDEF Example <e@example>\n".toList
        = "0123456789ABCDEF".toList := by
  refine ⟨by decide, by decide, by decide⟩

/-- C11, amended: starting from empty vectors and without key scoping, after
any finite sequence of status lines, no entry occurs in more than one of
`GoodSigners`, `BadSigners` and `WorthlessSigners`: an entry of the first
begins with "GOODSIG", an entry of the second with "BADSIG" or "NODATA", an
entry of the third with "KEYEXPIRED" or "REVKEYSIG" or is the bare run of
hexadecimal digits pushed for an Untrusted digest.  This holds whatever the
statement `GoodSigners.erase(std::remove(...))` of the Untrusted case leaves
in `GoodSigners`, as long as it leaves only entries that were there; the
status loop is the case `erase_remove`.  Nothing is said about the key
identifiers the entries carry. -/
theorem statusLoop_entries_disjoint (erase : List CStr → CStr → Option (List CStr))
    (lines : List CStr) (s : State)
    (herase : ∀ v x g, erase v x = some g → ∀ e ∈ g, e ∈ v)
    (h : statusLoopWith erase {} lines = some s) :
    (∀ s0 ls, statusLoopWith erase_remove s0 ls = statusLoop s0 ls)
    ∧ (∀ e ∈ s.GoodSigners, "GOODSIG".toList <+: e)
    ∧ (∀ e ∈ s.BadSigners, "BADSIG".toList <+: e ∨ "NODATA".toList <+: e)
    ∧ (∀ e ∈ s.WorthlessSigners,
        "KEYEXPIRED".toList <+: e ∨ "REVKEYSIG".toList <+: e ∨ ∀ c ∈ e, isxdigit c = true)
    ∧ List.Disjoint s.GoodSigners s.BadSigners
    ∧ List.Disjoint s.GoodSigners s.WorthlessSigners
    ∧ List.Disjoint s.BadSigners s.WorthlessSigners := by
  have ht : EntryShapes s := statusLoopWith_shapes erase herase lines {} s EntryShapes_empty h
  have hd := EntryShapes_disjoint s ht
  exact ⟨statusLoopWith_erase_remove, ht.1, ht.2.1, ht.2.2, hd.1, hd.2.1, hd.2.2⟩

set_option maxRecDepth 100000 in
theorem statusLoop_entries_disjoint_witness :
    statusLoopWith (fun v _ => some v.dropLast) {}
        [ "[GNUPG:] GOODSIG 0123456789ABCDEF Example <e@example>\n".toList,
          "[GNUPG:] GOODSIG FEDCBA9876543210 Other <o@example>\n".toList,
          "[GNUPG:] REVKEYSIG 1111111111111111 Third <t@example>\n".toList,
          "[GNUPG:] VALIDSIG 0123456789ABCDEF 2016-01-01 1451606400 0 4 0 1 1 00 0123456789ABCDEF\n".toList ]
      = some
        { GoodSigners := ["GOODSIG 0123456789ABCDEF".toList],
          WorthlessSigners :=
            [ "REVKEYSIG 1111111111111111 Third <t@example>\n".toList,
              "0123456789ABCDEF".toList ],
          ValidSigners := ["0123456789ABCDEF".toList] }
    ∧ List.Disjoint ["GOODSIG 0123456789ABCDEF".toList]
        [ "REVKEYSIG 1111111111111111 Third <t@example>\n".toList,
          "0123456789ABCDEF".toList ] :=
  have hrun : statusLoopWith (fun v _ => some v.dropLast) {}
      [ "[GNUPG:] GOODSIG 0123456789ABCDEF Example <e@example>\n".toList,
        "[GNUPG:] GOODSIG FEDCBA9876543210 Other <o@example>\n".toList,
        "[GNUPG:] REVKEYSIG 1111111111111111 Third <t@example>\n".toList,
        "[GNUPG:] VALIDSIG 0123456789ABCDEF 2016-01-01 1451606400 0 4 0 1 1 00 0123456789ABCDEF\n".toList ]
      = some
        { GoodSigners := ["GOODSIG 0123456789ABCDEF".toList],
          WorthlessSigners :=
            [ "REVKEYSIG 1111111111111111 Third <t@example>\n".toList,
              "0123456789ABCDEF".toList ],
          ValidSigners := ["0123456789ABCDEF".toList] } := by
    decide
  ⟨hrun, (statusLoop_entries_disjoint (fun v _ => some v.dropLast) _ _
    (fun v _ g hg e he => by
      cases hg
      exact List.mem_of_mem_dropLast he) hrun).2.2.2.2.2.1⟩

/-- C15: a status line that begins with none of the seven tag strings
("[GNUPG:] " followed by BADSIG, NO_PUBKEY, NODATA, KEYEXPIRED, REVKEYSIG,
GOODSIG or VALIDSIG) is processed without failure and leaves `GoodSigners`,
`BadSigners`, `WorthlessSigners`, `SoonWorthlessSigners`, `NoPubKeySigners`
and `ValidSigners` unchanged. -/
theorem untagged_line_ignored (s : State) (buffer : CStr)
    (h : ∀ tag ∈ [ "[GNUPG:] BADSIG".toList, "[GNUPG:] NO_PUBKEY".toList,
        "[GNUPG:] NODATA".toList, "[GNUPG:] KEYEXPIRED".toList, "[GNUPG:] REVKEYSIG".toList,
        "[GNUPG:] GOODSIG".toList, "[GNUPG:] VALIDSIG".toList ], ¬ tag <+: buffer) :
    processLine s buffer = some s :=
  processLine_untagged s buffer (h _ (by decide)) (h _ (by decide)) (h _ (by decide))
    (h _ (by decide)) (h _ (by decide)) (h _ (by decide)) (h _ (by decide))

theorem untagged_line_ignored_witness :
    processLine { GoodSigners := ["GOODSIG 0123456789ABCDEF".toList] }
        "[GNUPG:] NEWSIG signer@example\n".toList
      = some { GoodSigners := ["GOODSIG 0123456789ABCDEF".toList] } :=
  untagged_line_ignored { GoodSigners := ["GOODSIG 0123456789ABCDEF".toList] }
    "[GNUPG:] NEWSIG signer@example\n".toList (by decide)

/-- C16: a line beginning with the BADSIG or the NODATA tag appends one entry,
the text of the line after "[GNUPG:] ", to `BadSigners` and changes no other
vector; a NO_PUBKEY line does so to `NoPubKeySigners`, a KEYEXPIRED or
REVKEYSIG line to `WorthlessSigners`.  The comparison that dispatches NODATA
(made on the length of the BADSIG tag) succeeds exactly on the lines that
begin with the full tag "[GNUPG:] NODATA". -/
theorem tagged_line_appends (s : State) (rest : CStr) :
    processLine s ("[GNUPG:] BADSIG".toList ++ rest)
      = some { s with BadSigners := s.BadSigners ++ ["BADSIG".toList ++ rest] }
    ∧ processLine s ("[GNUPG:] NODATA".toList ++ rest)
      = some { s with BadSigners := s.BadSigners ++ ["NODATA".toList ++ rest] }
    ∧ processLine s ("[GNUPG:] NO_PUBKEY".toList ++ rest)
      = some { s with NoPubKeySigners := s.NoPubKeySigners ++ ["NO_PUBKEY".toList ++ rest] }
    ∧ processLine s ("[GNUPG:] KEYEXPIRED".toList ++ rest)
      = some { s with WorthlessSigners := s.WorthlessSigners ++ ["KEYEXPIRED".toList ++ rest] }
    ∧ processLine s ("[GNUPG:] REVKEYSIG".toList ++ rest)
      = some { s with WorthlessSigners := s.WorthlessSigners ++ ["REVKEYSIG".toList ++ rest] }
    ∧ (∀ buffer : CStr,
        strncmp_eq buffer GNUPGNODATA (sizeof GNUPGBADSIG - 1) = true
          ↔ "[GNUPG:] NODATA".toList <+: buffer) :=
  ⟨processLine_badsig s rest, processLine_nodata s rest, processLine_nopubkey s rest,
    processLine_keyexpired s rest, processLine_revkeysig s rest,
    fun buffer => strncmp_eq_iff_begins buffer GNUPGNODATA⟩

/-- C17: a line beginning with "[GNUPG:] GOODSIG " is processed without
failure, appends one entry to `GoodSigners` and changes no other vector; the
entry is "GOODSIG " followed by the longest run of hexadecimal digits at the
start of the key id, the text behind it and the newline being dropped. -/
theorem goodsig_line_appends (s : State) (rest : CStr) :
    processLine s ("[GNUPG:] GOODSIG ".toList ++ rest)
      = some { s with
          GoodSigners := s.GoodSigners ++ ["GOODSIG ".toList ++ rest.takeWhile isxdigit] } := by
  have hshape : "[GNUPG:] GOODSIG ".toList ++ rest = "[GNUPG:] GOODSIG".toList ++ ' ' :: rest := rfl
  have htag : strncmp_eq ("[GNUPG:] GOODSIG ".toList ++ rest) GNUPGGOODSIG
      (sizeof GNUPGGOODSIG - 1) = true :=
    (strncmp_eq_iff_begins _ GNUPGGOODSIG).mpr ⟨' ' :: rest, rfl⟩
  rw [processLine_goodsig s _ htag, hshape, goodsigBranch_eq]
  rfl


/-! ## The worked examples of the specification -/

set_option maxRecDepth 100000 in
/-- C12, as stated, fails: in the line
`[GNUPG:] VALIDSIG <fpr> 2024-01-01 0 4 0 1 8 01 <fpr>` the field at position
7 is `01`, which `FindDigest` resolves to MD5 (Untrusted), so the run does not
return the vectors of the claim; and the `GOODSIG` line alone stores
"GOODSIG AAAA1234", not "AAAA1234 Example <e@example>". -/
theorem example_line_field7_is_md5 :
    (istream_tokens
        ("[GNUPG:] VALIDSIG AAAA1234AAAA1234AAAA1234AAAA1234AAAA1234 2024-01-01 0 4 0 1 8 01 AAAA1234AAAA1234AAAA1234AAAA1234AAAA1234\n".toList.drop
          (sizeof GNUPGVALIDSIG)))[7]? = some "01".toList
    ∧ FindDigest "01".toList = some ⟨.Untrusted, "MD5".toList⟩
    ∧ GPGVMethod.VerifyGetSigners []
        (.ran [ "[GNUPG:] VALIDSIG AAAA1234AAAA1234AAAA1234AAAA1234AAAA1234 2024-01-01 0 4 0 1 8 01 AAAA1234AAAA1234AAAA1234AAAA1234AAAA1234\n".toList,
                "[GNUPG:] GOODSIG AAAA1234 Example <e@example>\n".toList ] 0)
        [] [] [] [] [] = none
    ∧ statusLoop {} ["[GNUPG:] GOODSIG AAAA1234 Example <e@example>\n".toList]
      = some { GoodSigners := ["GOODSIG AAAA1234".toList] }
    ∧ "GOODSIG AAAA1234".toList ≠ "AAAA1234 Example <e@example>".toList := by
  refine ⟨by decide, by decide, by decide, by decide, by decide⟩

set_option maxRecDepth 100000 in
/-- C12, amended: from empty vectors and with no key specifier, the line
`[GNUPG:] VALIDSIG <fpr> 2024-01-01 1704067200 0 4 0 1 8 01 <fpr>`, which
carries the digest id 8 (SHA256) at field position 7, followed by the line
`[GNUPG:] GOODSIG AAAA1234 Example <e@example>`, with exit status 0, yields
`GoodSigners` = ["GOODSIG AAAA1234"], `WorthlessSigners` empty,
`SoonWorthlessSigners` empty, an empty message and an accepted verdict. -/
theorem spec_example_sha256 :
    GPGVMethod.VerifyGetSigners []
        (.ran [ "[GNUPG:] VALIDSIG AAAA1234AAAA1234AAAA1234AAAA1234AAAA1234 2024-01-01 1704067200 0 4 0 1 8 01 AAAA1234AAAA1234AAAA1234AAAA1234AAAA1234\n".toList,
                "[GNUPG:] GOODSIG AAAA1234 Example <e@example>\n".toList ] 0)
        [] [] [] [] []
      = some ([],
          { GoodSigners := ["GOODSIG AAAA1234".toList],
            WorthlessSigners := [],
            SoonWorthlessSigners := [],
            ValidSigners := ["AAAA1234AAAA1234AAAA1234AAAA1234AAAA1234".toList] })
    ∧ GPGVMethod.URIAcquire []
        (.ran [ "[GNUPG:] VALIDSIG AAAA1234AAAA1234AAAA1234AAAA1234AAAA1234 2024-01-01 1704067200 0 4 0 1 8 01 AAAA1234AAAA1234AAAA1234AAAA1234AAAA1234\n".toList,
                "[GNUPG:] GOODSIG AAAA1234 Example <e@example>\n".toList ] 0)
      = some
        { ret := true, Error := none, Warnings := [],
          GPGVOutput := some ["GOODSIG AAAA1234".toList] } := by
  refine ⟨by decide, by decide⟩

set_option maxRecDepth 100000 in
/-- C13, as stated, fails: after the `GOODSIG` line of the key
0123456789ABCDEF, its `VALIDSIG` line with digest id 2 (SHA1) leaves
`WorthlessSigners` empty and the `GOODSIG` entry in `GoodSigners`; with this
as the only signer the warning is emitted and `URIAcquire` accepts. -/
theorem sha1_only_signer_is_accepted :
    GPGVMethod.VerifyGetSigners []
        (.ran [ "[GNUPG:] GOODSIG 0123456789ABCDEF Example <e@example>\n".toList,
                "[GNUPG:] VALIDSIG 0123456789ABCDEF 2016-01-01 1451606400 0 4 0 1 2 00 0123456789ABCDEF\n".toList ] 0)
        [] [] [] [] []
      = some ([],
          { GoodSigners := ["GOODSIG 0123456789ABCDEF".toList],
            WorthlessSigners := [],
            SoonWorthlessSigners := [⟨"0123456789ABCDEF".toList, "SHA1".toList⟩],
            ValidSigners := ["0123456789ABCDEF".toList] })
    ∧ GPGVMethod.URIAcquire []
        (.ran [ "[GNUPG:] GOODSIG 0123456789ABCDEF Example <e@example>\n".toList,
                "[GNUPG:] VALIDSIG 0123456789ABCDEF 2016-01-01 1451606400 0 4 0 1 2 00 0123456789ABCDEF\n".toList ] 0)
      = some
        { ret := true, Error := none,
          Warnings :=
            ["Signature by key 0123456789ABCDEF uses weak digest algorithm (SHA1)".toList],
          GPGVOutput := some ["GOODSIG 0123456789ABCDEF".toList] } := by
  refine ⟨by decide, by decide⟩

/-- The text of a weak-digest warning. -/
theorem weakDigestWarning_eq (key note : CStr) :
    weakDigestWarning ⟨key, note⟩
      = "Signature by key ".toList ++ key ++ " uses weak digest algorithm (".toList
          ++ note ++ ")".toList := by
  simp [weakDigestWarning, gettext, format]

/-- C13, amended: a `VALIDSIG` line with digest id 2 (SHA1) is processed
without failure; it leaves `WorthlessSigners` and `GoodSigners` as they are
and makes `SoonWorthlessSigners` gain the pair of the signer key and "SHA1".
If the `GOODSIG` entry of that key is the only entry of `GoodSigners`, with
no earlier soon-worthless signer and no bad signer, the weak-digest warning
for the key is emitted and the verdict is accepted, `GoodSigners` being
non-empty. -/
theorem sha1_validsig_warns (s : State) (buffer token : CStr)
    (htag : strncmp_eq buffer GNUPGVALIDSIG (sizeof GNUPGVALIDSIG - 1) = true)
    (htok : (istream_tokens (buffer.drop (sizeof GNUPGVALIDSIG)))[7]? = some token)
    (hid : atoi token = 2) :
    ∃ s1, processLine s buffer = some s1
      ∧ s1.WorthlessSigners = s.WorthlessSigners
      ∧ s1.GoodSigners = s.GoodSigners
      ∧ s1.BadSigners = s.BadSigners
      ∧ s1.NoPubKeySigners = s.NoPubKeySigners
      ∧ s1.SoonWorthlessSigners = s.SoonWorthlessSigners
          ++ [⟨(buffer.drop (sizeof GNUPGVALIDSIG)).takeWhile isxdigit, "SHA1".toList⟩]
      ∧ (s.GoodSigners
            = ["GOODSIG ".toList ++ (buffer.drop (sizeof GNUPGVALIDSIG)).takeWhile isxdigit] →
          s.SoonWorthlessSigners = [] → s.BadSigners = [] →
          weakDigestWarnings s1
            = some ["Signature by key ".toList
                ++ (buffer.drop (sizeof GNUPGVALIDSIG)).takeWhile isxdigit
                ++ " uses weak digest algorithm (".toList ++ "SHA1".toList ++ ")".toList]
          ∧ ∀ msg Warnings, (decision msg s1 Warnings).ret = true
              ∧ (decision msg s1 Warnings).GPGVOutput
                  = some (s.GoodSigners ++ s.NoPubKeySigners)) := by
  have hd : FindDigest token = some ⟨.Weak, "SHA1".toList⟩ := by
    rw [FindDigest_in_range token (by omega) (by omega), hid]
    rfl
  refine ⟨{ s with
      SoonWorthlessSigners := s.SoonWorthlessSigners
        ++ [⟨(buffer.drop (sizeof GNUPGVALIDSIG)).takeWhile isxdigit, "SHA1".toList⟩],
      ValidSigners := s.ValidSigners
        ++ [(buffer.drop (sizeof GNUPGVALIDSIG)).takeWhile isxdigit] }, ?_, rfl, rfl, rfl, rfl,
    rfl, ?_⟩
  · rw [processLine_validsig s buffer htag]
    simp [validsigBranch, cstrAt_of_token buffer token htok, htok, hd]
  · intro hg hsoon hbad
    constructor
    · simp only [weakDigestWarnings, hg, hsoon, List.nil_append, NotWarnAboutSigners,
        erase_remove]
      rw [← weakDigestWarning_eq]
      simp
    · intro msg Warnings
      have hret := (decision_ret msg { s with
        SoonWorthlessSigners := s.SoonWorthlessSigners
          ++ [⟨(buffer.drop (sizeof GNUPGVALIDSIG)).takeWhile isxdigit, "SHA1".toList⟩],
        ValidSigners := s.ValidSigners
          ++ [(buffer.drop (sizeof GNUPGVALIDSIG)).takeWhile isxdigit] } Warnings).mpr
        ⟨by simp [hg], hbad⟩
      refine ⟨hret, ?_⟩
      simp [decision, hg, hbad]


set_option maxRecDepth 100000 in
theorem sha1_validsig_warns_witness :
    ∃ s1, processLine { GoodSigners := ["GOODSIG 0123456789ABCDEF".toList] }
        "[GNUPG:] VALIDSIG 0123456789ABCDEF 2016-01-01 1451606400 0 4 0 1 2 00 0123456789ABCDEF\n".toList
        = some s1
      ∧ s1.WorthlessSigners = []
      ∧ s1.GoodSigners = ["GOODSIG 0123456789ABCDEF".toList]
      ∧ s1.SoonWorthlessSigners = [⟨"0123456789ABCDEF".toList, "SHA1".toList⟩]
      ∧ weakDigestWarnings s1
          = some ["Signature by key 0123456789ABCDEF uses weak digest algorithm (SHA1)".toList]
      ∧ (decision [] s1 []).ret = true :=
  have h := sha1_validsig_warns { GoodSigners := ["GOODSIG 0123456789ABCDEF".toList] }
    "[GNUPG:] VALIDSIG 0123456789ABCDEF 2016-01-01 1451606400 0 4 0 1 2 00 0123456789ABCDEF\n".toList
    "2".toList (by decide) (by decide) (by decide)
  match h with
  | ⟨s1, h1, h2, h3, _, _, h6, h7⟩ =>
    ⟨s1, h1, h2, h3, h6, (h7 (by decide) rfl rfl).1, ((h7 (by decide) rfl rfl).2 [] []).1⟩

/-! ## The digest table -/

/-- C14: the table has twelve entries: 0 "Invalid digest" and 1 "MD5" are
Untrusted, 2 "SHA1" and 3 "RIPE-MD/160" are Weak, 4 to 7 are Trusted reserved
placeholders, 8 "SHA256", 9 "SHA384", 10 "SHA512" and 11 "SHA224" are Trusted;
so `FindDigest` gives an Untrusted entry exactly when the id is 0, 1 or
outside 0..11. -/
theorem Digests_tiers (token : CStr) :
    Digests.length = 12
    ∧ Digests[0]? = some ⟨.Untrusted, "Invalid digest".toList⟩
    ∧ Digests[1]? = some ⟨.Untrusted, "MD5".toList⟩
    ∧ Digests[2]? = some ⟨.Weak, "SHA1".toList⟩
    ∧ Digests[3]? = some ⟨.Weak, "RIPE-MD/160".toList⟩
    ∧ (∀ i, 4 ≤ i → i ≤ 7 → Digests[i]? = some ⟨.Trusted, "Reserved digest".toList⟩)
    ∧ Digests[8]? = some ⟨.Trusted, "SHA256".toList⟩
    ∧ Digests[9]? = some ⟨.Trusted, "SHA384".toList⟩
    ∧ Digests[10]? = some ⟨.Trusted, "SHA512".toList⟩
    ∧ Digests[11]? = some ⟨.Trusted, "SHA224".toList⟩
    ∧ ∃ d, FindDigest token = some d
        ∧ (d.state = .Untrusted
            ↔ (atoi token = 0 ∨ atoi token = 1 ∨ atoi token < 0 ∨ 11 < atoi token)) := by
  refine ⟨rfl, rfl, rfl, rfl, rfl, ?_, rfl, rfl, rfl, rfl, ?_⟩
  · intro i h4 h7
    have hi : i = 4 ∨ i = 5 ∨ i = 6 ∨ i = 7 := by omega
    rcases hi with h | h | h | h <;> subst h <;> rfl
  · by_cases h : 0 ≤ atoi token ∧ atoi token < 12
    · have hfd := FindDigest_in_range token h.1 h.2
      obtain ⟨h0, h1⟩ := h
      generalize atoi token = id at hfd h0 h1
      have hcases : id = 0 ∨ id = 1 ∨ id = 2 ∨ id = 3 ∨ id = 4 ∨ id = 5 ∨ id = 6 ∨ id = 7
          ∨ id = 8 ∨ id = 9 ∨ id = 10 ∨ id = 11 := by omega
      rcases hcases with h | h | h | h | h | h | h | h | h | h | h | h <;> subst h <;>
        exact ⟨_, hfd.trans rfl, by decide⟩
    · refine ⟨_, FindDigest_out_of_range token h, ?_⟩
      constructor
      · intro _
        omega
      · intro _
        rfl


/-! ## The fields of a `VALIDSIG` line -/

/-- The first token: what was read so far, then the characters up to the next
whitespace. -/
theorem istream_tokens_aux_head (l cur : CStr)
    (h : cur ≠ [] ∨ ∃ c cs, l = c :: cs ∧ isspace c = false) :
    (istream_tokens_aux l cur)[0]? = some (cur.reverse ++ l.takeWhile fun c => !isspace c) := by
  induction l generalizing cur with
  | nil =>
    rcases h with h | ⟨c, cs, h, _⟩
    · simp [istream_tokens_aux, h]
    · cases h
  | cons a t ih =>
    by_cases ha : isspace a = true
    · rcases h with h | ⟨c, cs, h, hc⟩
      · simp [istream_tokens_aux, ha, h, List.takeWhile_cons]
      · simp only [List.cons.injEq] at h
        rw [h.1, hc] at ha
        cases ha
    · have ha2 : isspace a = false := by simpa using ha
      have := ih (a :: cur) (Or.inl (List.cons_ne_nil _ _))
      simp [istream_tokens_aux, ha2, List.takeWhile_cons, this]

/-- The hexadecimal run of a text stops before any whitespace. -/
theorem takeWhile_isxdigit_field (l : CStr) :
    (l.takeWhile fun c => !isspace c).takeWhile isxdigit = l.takeWhile isxdigit := by
  induction l with
  | nil => rfl
  | cons a t ih =>
    by_cases hx : isxdigit a = true
    · have hs : isspace a = false := by
        cases hsp : isspace a with
        | false => rfl
        | true =>
          simp only [isspace, Bool.or_eq_true, decide_eq_true_eq] at hsp
          rcases hsp with ((((h | h) | h) | h) | h) | h <;> subst h <;> exact absurd hx (by decide)
      simp [List.takeWhile_cons, hx, hs, ih]
    · by_cases hs : isspace a = true
      · simp [List.takeWhile_cons, hx, hs]
      · simp [List.takeWhile_cons, hx, hs]

set_option maxRecDepth 100000 in
/-- C18, as stated, fails: a `VALIDSIG` line with two blanks after the tag has
ten fields, the first being 0123456789ABCDEF, yet the key recorded in
`ValidSigners` is the empty string. -/
theorem validsig_two_blanks_records_empty_key :
    (istream_tokens
        ("[GNUPG:] VALIDSIG  0123456789ABCDEF 2016-01-01 1451606400 0 4 0 1 8 00 0123456789ABCDEF\n".toList.drop
          (sizeof GNUPGVALIDSIG - 1))).length = 10
    ∧ (istream_tokens
        ("[GNUPG:] VALIDSIG  0123456789ABCDEF 2016-01-01 1451606400 0 4 0 1 8 00 0123456789ABCDEF\n".toList.drop
          (sizeof GNUPGVALIDSIG - 1)))[0]? = some "0123456789ABCDEF".toList
    ∧ processLine {}
        "[GNUPG:] VALIDSIG  0123456789ABCDEF 2016-01-01 1451606400 0 4 0 1 8 00 0123456789ABCDEF\n".toList
      = some { ValidSigners := [[]] } := by
  refine ⟨by decide, by decide, by decide⟩

/-- C18, amended: for every line made of the `VALIDSIG` tag, one blank and a
text that does not start with whitespace and has at least 8
whitespace-separated fields, the signer key recorded (in `ValidSigners`, and
in `WorthlessSigners` or `SoonWorthlessSigners` when the tier asks for it) is
the leading hexadecimal run of the first field, and the digest applied is
`FindDigest` of the field at position 7: a Trusted digest records the key in
`ValidSigners` only, a Weak one also appends the key with the digest name to
`SoonWorthlessSigners`, an Untrusted one appends the key to
`WorthlessSigners` and runs the one-iterator erase of the key on
`GoodSigners`. -/
theorem validsig_key_and_digest (s : State) (rest field0 token : CStr) (d : Digest)
    (hstart : ∃ c cs, rest = c :: cs ∧ isspace c = false)
    (hfield0 : (istream_tokens rest)[0]? = some field0)
    (htok : (istream_tokens rest)[7]? = some token)
    (hd : FindDigest token = some d) :
    (d.state = .Trusted →
      processLine s ("[GNUPG:] VALIDSIG ".toList ++ rest)
        = some { s with ValidSigners := s.ValidSigners ++ [field0.takeWhile isxdigit] })
    ∧ (d.state = .Weak →
      processLine s ("[GNUPG:] VALIDSIG ".toList ++ rest)
        = some { s with
            SoonWorthlessSigners :=
              s.SoonWorthlessSigners ++ [⟨field0.takeWhile isxdigit, d.name⟩],
            ValidSigners := s.ValidSigners ++ [field0.takeWhile isxdigit] })
    ∧ (d.state = .Untrusted →
      processLine s ("[GNUPG:] VALIDSIG ".toList ++ rest)
        = (erase_remove s.GoodSigners (field0.takeWhile isxdigit)).map fun good =>
            { s with
              WorthlessSigners := s.WorthlessSigners ++ [field0.takeWhile isxdigit],
              GoodSigners := good,
              ValidSigners := s.ValidSigners ++ [field0.takeWhile isxdigit] }) := by
  have hkey : field0.takeWhile isxdigit = rest.takeWhile isxdigit := by
    have h0 := istream_tokens_aux_head rest [] (Or.inr hstart)
    rw [show istream_tokens_aux rest [] = istream_tokens rest from rfl, hfield0] at h0
    simp only [Option.some.injEq, List.reverse_nil, List.nil_append] at h0
    rw [h0, takeWhile_isxdigit_field]
  have htag : strncmp_eq ("[GNUPG:] VALIDSIG ".toList ++ rest) GNUPGVALIDSIG
      (sizeof GNUPGVALIDSIG - 1) = true :=
    (strncmp_eq_iff_begins _ GNUPGVALIDSIG).mpr ⟨' ' :: rest, rfl⟩
  have hsig : cstrAt ("[GNUPG:] VALIDSIG ".toList ++ rest) (sizeof GNUPGVALIDSIG) = some rest := by
    simp [cstrAt, sizeof, GNUPGVALIDSIG]
  rw [processLine_validsig s _ htag, hkey]
  refine ⟨?_, ?_, ?_⟩ <;> intro hst <;>
    simp only [validsigBranch, Option.bind_eq_bind, hsig, Option.some_bind, htok, hd, hst]
  cases erase_remove s.GoodSigners (List.takeWhile isxdigit rest) <;> rfl

set_option maxRecDepth 100000 in
theorem validsig_key_and_digest_witness :
    processLine {}
        ("[GNUPG:] VALIDSIG ".toList
          ++ "0123456789ABCDEF0123456789ABCDEF01234567 2016-01-01 1451606400 0 4 0 1 2 00 0123456789ABCDEF0123456789ABCDEF01234567\n".toList)
      = some
        { SoonWorthlessSigners :=
            [⟨"0123456789ABCDEF0123456789ABCDEF01234567".toList, "SHA1".toList⟩],
          ValidSigners := ["0123456789ABCDEF0123456789ABCDEF01234567".toList] } :=
  have h := validsig_key_and_digest {}
    "0123456789ABCDEF0123456789ABCDEF01234567 2016-01-01 1451606400 0 4 0 1 2 00 0123456789ABCDEF0123456789ABCDEF01234567\n".toList
    "0123456789ABCDEF0123456789ABCDEF01234567".toList "2".toList ⟨.Weak, "SHA1".toList⟩
    ⟨'0', _, rfl, by decide⟩ (by decide) (by decide) (by decide)
  (h.2.1 rfl).trans (by decide)


/-! ## The error text -/

theorem format_percent_s (x : CStr) : format ['%', 's'] [x] = x := by
  simp [format]

set_option maxRecDepth 100000 in
/-- C19, as stated, fails: with one `BADSIG` line and exit status 1 the
diagnostic of `VerifyGetSigners` is the invalid-signature message, and the
error text of `URIAcquire` is the listing of the bad signer alone; the
diagnostic is not part of it. -/
theorem rejection_drops_the_diagnostic :
    (GPGVMethod.VerifyGetSigners []
        (.ran ["[GNUPG:] BADSIG 0123456789ABCDEF Example <e@example>\n".toList] 1)
        [] [] [] [] []).map (fun p => p.1)
      = some "At least one invalid signature was encountered.".toList
    ∧ (GPGVMethod.URIAcquire []
        (.ran ["[GNUPG:] BADSIG 0123456789ABCDEF Example <e@example>\n".toList] 1)).map
        (fun r => (r.ret, r.Error))
      = some (false,
          some "The following signatures were invalid:\nBADSIG 0123456789ABCDEF Example <e@example>\n\n".toList)
    ∧ "The following signatures were invalid:\nBADSIG 0123456789ABCDEF Example <e@example>\n\n".toList
      ≠ "At least one invalid signature was encountered.".toList
          ++ "The following signatures were invalid:\nBADSIG 0123456789ABCDEF Example <e@example>\n\n".toList := by
  refine ⟨by decide, by decide, by decide⟩

/-- C19, amended: whenever `URIAcquire` rejects, the error text is the
diagnostic returned by `VerifyGetSigners` if `BadSigners`, `WorthlessSigners`
and `NoPubKeySigners` are all empty; otherwise it is the listings alone,
without the diagnostic: the `BadSigners` entries, each followed by a newline,
under the header "The following signatures were invalid:", then the
`WorthlessSigners` entries under the same header, then the `NoPubKeySigners`
entries under the public-key-not-available header, a group being present only
when its vector is non-empty. -/
theorem rejection_message (msg : CStr) (s : State) (Warnings : List CStr)
    (h : (decision msg s Warnings).ret = false) :
    (decision msg s Warnings).Error = some
      (if s.BadSigners = [] ∧ s.WorthlessSigners = [] ∧ s.NoPubKeySigners = [] then msg
       else
        (if s.BadSigners = [] then []
         else "The following signatures were invalid:\n".toList
            ++ (s.BadSigners.map fun e => e ++ "\n".toList).flatten)
        ++ (if s.WorthlessSigners = [] then []
         else "The following signatures were invalid:\n".toList
            ++ (s.WorthlessSigners.map fun e => e ++ "\n".toList).flatten)
        ++ (if s.NoPubKeySigners = [] then []
         else "The following signatures couldn't be verified because the public key is not available:\n".toList
            ++ (s.NoPubKeySigners.map fun e => e ++ "\n".toList).flatten)) := by
  have hrej : (decision msg s Warnings).Error = some (errmsg msg s) := by
    have hnot : ¬ (s.GoodSigners ≠ [] ∧ s.BadSigners = []) := by
      intro hc
      rw [(decision_ret msg s Warnings).mpr hc] at h
      cases h
    obtain ⟨good, bad, worthless, soon, nopub, valid⟩ := s
    cases good <;> cases bad <;> cases nopub <;>
      simp_all [decision, format_percent_s]
  rw [hrej]
  obtain ⟨good, bad, worthless, soon, nopub, valid⟩ := s
  cases bad <;> cases worthless <;> cases nopub <;>
    simp [errmsg, listing, gettext]

set_option maxRecDepth 100000 in
theorem rejection_message_witness :
    (decision "At least one invalid signature was encountered.".toList
        { WorthlessSigners := ["KEYEXPIRED 1451606400\n".toList],
          NoPubKeySigners := ["NO_PUBKEY FEDCBA9876543210\n".toList] } []).Error
      = some ("The following signatures were invalid:\nKEYEXPIRED 1451606400\n\n".toList
          ++ "The following signatures couldn't be verified because the public key is not available:\nNO_PUBKEY FEDCBA9876543210\n\n".toList) :=
  (rejection_message "At least one invalid signature was encountered.".toList
    { WorthlessSigners := ["KEYEXPIRED 1451606400\n".toList],
      NoPubKeySigners := ["NO_PUBKEY FEDCBA9876543210\n".toList] } [] (by decide)).trans
    (by decide)

/-! ## The search of the Untrusted branch -/

/-- C20: after any finite sequence of status lines processed from empty
vectors on which the loop returns, every `GoodSigners` entry begins with
"GOODSIG", while the value the Untrusted `VALIDSIG` case of any line searches
for is a run of hexadecimal digits, possibly empty; so the value equals no
`GoodSigners` entry, `std::remove` finds no element, and the one-iterator
erase is given `end()`. -/
theorem untrusted_search_finds_nothing (lines : List CStr) (s : State) (buffer : CStr)
    (h : statusLoop {} lines = some s) :
    (∀ e ∈ s.GoodSigners, "GOODSIG".toList <+: e)
    ∧ (∀ c ∈ (buffer.drop (sizeof GNUPGVALIDSIG)).takeWhile isxdigit, isxdigit c = true)
    ∧ (buffer.drop (sizeof GNUPGVALIDSIG)).takeWhile isxdigit ∉ s.GoodSigners
    ∧ s.GoodSigners.count ((buffer.drop (sizeof GNUPGVALIDSIG)).takeWhile isxdigit) = 0
    ∧ erase_remove s.GoodSigners ((buffer.drop (sizeof GNUPGVALIDSIG)).takeWhile isxdigit)
        = none := by
  have ht : TaggedEntries s := statusLoop_tagged lines {} s TaggedEntries_empty h
  have hnot := hexrun_not_mem s.GoodSigners ht.1 (buffer.drop (sizeof GNUPGVALIDSIG))
  have hcount : s.GoodSigners.count ((buffer.drop (sizeof GNUPGVALIDSIG)).takeWhile isxdigit)
      = 0 := List.count_eq_zero.mpr hnot
  refine ⟨ht.1, ?_, hnot, hcount, ?_⟩
  · intro c hc
    exact List.mem_takeWhile_imp hc
  · simp [erase_remove, hcount]

set_option maxRecDepth 100000 in
theorem untrusted_search_finds_nothing_witness :
    statusLoop {} ["[GNUPG:] GOODSIG 0123456789ABCDEF Example <e@example>\n".toList]
      = some { GoodSigners := ["GOODSIG 0123456789ABCDEF".toList] }
    ∧ List.count
        (("[GNUPG:] VALIDSIG 0123456789ABCDEF 2016-01-01 1451606400 0 4 0 1 1 00 0123456789ABCDEF\n".toList.drop
          (sizeof GNUPGVALIDSIG)).takeWhile isxdigit)
        ["GOODSIG 0123456789ABCDEF".toList] = 0 :=
  have hrun : statusLoop {} ["[GNUPG:] GOODSIG 0123456789ABCDEF Example <e@example>\n".toList]
      = some { GoodSigners := ["GOODSIG 0123456789ABCDEF".toList] } := by decide
  ⟨hrun, (untrusted_search_finds_nothing _ _
    "[GNUPG:] VALIDSIG 0123456789ABCDEF 2016-01-01 1451606400 0 4 0 1 1 00 0123456789ABCDEF\n".toList
    hrun).2.2.2.1⟩

end Gpgv
